import Mathlib

/-!
InveSTICKgator: the joystick table of `investickgator.c`.

A shallow embedding of the hot-plug bookkeeping in `src/investickgator.c`:
`struct joysticks`, `init_joysticks`, `restart_joystick_subsystems`, and the
three parts of `sim` (the event loop, the status window with the xinput button,
the per-slot panel loop).

Conventions.
* A C pointer is a natural number, `NULL` is `0`.
* Values returned by SDL and by the UI layer are inputs: an event carries what
  `SDL_JoystickOpen`, `SDL_JoystickName`, `SDL_HapticOpenFromJoystick` and
  `SDL_JoystickFromInstanceID` returned while it was handled, a frame carries what
  `nk_begin`, `nk_button_label`, `SDL_SetHint` and `SDL_InitSubSystem` returned and,
  for each slot, what the calls made inside `joystick_panel` returned.
* The SDL calls on joysticks, haptics and subsystems, the failed assertions and the
  entries into `joystick_panel` are appended to a log, each together with the
  joystick table as it was at that moment.
* `FTG_ASSERT` and `FTG_BREAK` come from the library header `ftg_core.h`.  The flag
  `brk` says whether `FTG_BREAK()` ends the process (a trap without debugger) or
  lets it continue; the statements below hold for both values.  A failed assertion
  is logged either way.
* The calls into the UI layer (`nk_...`) are not logged; what they return
  (`nk_begin`, `nk_button_label`) is an input.
-/

namespace Investickgator

/-- The constant `#define MAX_JOYSTICKS 16`. -/
abbrev MAX_JOYSTICKS : Nat := 16

/-- A C pointer (`SDL_Joystick *`, `SDL_Haptic *`, `const char *`). -/
abbrev Ptr := Nat

/-- The null pointer. -/
abbrev NULL : Ptr := 0

/-- A slot index of the table, `0 ≤ i < MAX_JOYSTICKS`. -/
abbrev Slot := Fin MAX_JOYSTICKS

/-- The table `struct joysticks { SDL_Joystick *ptr[MAX_JOYSTICKS]; bool has_haptics[MAX_JOYSTICKS]; }`. -/
structure joysticks where
  ptr : Slot → Ptr
  has_haptics : Slot → Bool

/-- The function `init_joysticks`: `ftg_bzero(joys, sizeof(struct joysticks))`. -/
def init_joysticks (_joys : joysticks) : joysticks :=
  { ptr := fun _ => NULL, has_haptics := fun _ => false }

/-- The assertions of the program, by the expression they test. -/
inductive assertion
  | result
  | found_added
  | js
  | found_removed
  deriving DecidableEq, Repr

/-- Calls that leave the program, as they are logged. -/
inductive call
  | SDL_JoystickOpen (device_id : Int)
  | SDL_JoystickName (joy : Ptr)
  | SDL_HapticOpenFromJoystick (joystick : Ptr)
  | SDL_HapticClose (haptic : Ptr)
  | SDL_JoystickInstanceID (joystick : Ptr)
  | SDL_JoystickFromInstanceID (instance_id : Int)
  | SDL_JoystickClose (js : Ptr)
  | SDL_SetHint_XINPUT_ENABLED (enable_xinput : Bool)
  | SDL_QuitSubSystem
  | SDL_InitSubSystem
  | FTG_ASSERT_failed (a : assertion)
  | FTG_BREAK
  | fatal
  | joystick_panel (js : Ptr) (device_index : Nat) (instance_id : Int) (has_haptics : Bool)
  | SDL_JoystickGetGUID (js : Ptr)
  | SDL_JoystickGetGUIDString
  | SDL_JoystickCurrentPowerLevel (js : Ptr)
  | SDL_JoystickNumButtons (js : Ptr)
  | SDL_JoystickGetButton (js : Ptr) (i : Nat)
  | SDL_JoystickNumAxes (js : Ptr)
  | SDL_JoystickGetAxis (js : Ptr) (i : Nat)
  | SDL_JoystickNumHats (js : Ptr)
  | SDL_JoystickGetHat (js : Ptr) (i : Nat)
  | SDL_HapticRumbleInit (haptic : Ptr)
  | SDL_HapticRumblePlay (haptic : Ptr) (length : Nat)
  | SDL_Delay (ms : Nat)
  deriving DecidableEq, Repr

/-- The program state that the claims are about, with the log of outside calls. -/
structure world where
  joys : joysticks
  g_enable_xinput : Bool
  quit : Bool
  running : Bool
  log : List (call × joysticks)

/-- Record a call, with the table as it is at that moment. -/
def emit (c : call) (w : world) : world :=
  { w with log := w.log ++ [(c, w.joys)] }

/-- The macro `FTG_BREAK()`: logged; ends the process when `brk` is set. -/
def FTG_BREAK (brk : Bool) (w : world) : world :=
  { emit call.FTG_BREAK w with running := w.running && !brk }

/-- The macro `FTG_ASSERT(exp)`: nothing when `exp` holds, else the failure is reported and
`FTG_BREAK()` is reached. -/
def FTG_ASSERT (brk : Bool) (a : assertion) (exp : Bool) (w : world) : world :=
  if exp then w else FTG_BREAK brk (emit (call.FTG_ASSERT_failed a) w)

/-- The function `fatal(msg)`: message, then `exit(1)`. -/
def fatal (w : world) : world :=
  { emit call.fatal w with running := false }

/-- The function `get_joystick_name(joy)`: `name` is what `SDL_JoystickName(joy)` returned. -/
def get_joystick_name (brk : Bool) (joy name : Ptr) (w : world) : world :=
  let w := emit (call.SDL_JoystickName joy) w
  if name ≠ NULL then w else FTG_BREAK brk w

/-- The function `restart_joystick_subsystems(first_time, enable_xinput)`; `hint_ok` and `init_ok`
say whether `SDL_SetHint` returned true and `SDL_InitSubSystem` returned 0. -/
def restart_joystick_subsystems (brk first_time enable_xinput hint_ok init_ok : Bool)
    (w : world) : world :=
  let w := emit (call.SDL_SetHint_XINPUT_ENABLED enable_xinput) w
  let w := FTG_ASSERT brk assertion.result hint_ok w
  if !w.running then w else
  let w := if !first_time then emit call.SDL_QuitSubSystem w else w
  let w := emit call.SDL_InitSubSystem w
  if init_ok then w else fatal w

/-- The slot indices in the order `for (int i = 0; i < MAX_JOYSTICKS; i++)` visits them. -/
def slots : List Slot := List.finRange MAX_JOYSTICKS

/-- The two assignments `joys->ptr[i] = joystick; joys->has_haptics[i] = has_haptics;`. -/
def store (joys : joysticks) (i : Slot) (joystick : Ptr) (has_haptics : Bool) : joysticks :=
  { ptr := Function.update joys.ptr i joystick,
    has_haptics := Function.update joys.has_haptics i has_haptics }

/-- The loop "find a spot for it" of `SDL_JOYDEVICEADDED`, over the indices still to
visit; returns the table and `found`. -/
def add_scan (joystick : Ptr) (has_haptics : Bool) :
    List Slot → joysticks → joysticks × Bool
  | [], joys => (joys, false)
  | i :: rest, joys =>
    if joys.ptr i = NULL then (store joys i joystick has_haptics, true)
    else add_scan joystick has_haptics rest joys

/-- The loop "Remove it from the array" of `SDL_JOYDEVICEREMOVED`, over the indices
still to visit; returns the table and `found`. -/
def remove_scan (js : Ptr) : List Slot → joysticks → joysticks × Bool
  | [], joys => (joys, false)
  | i :: rest, joys =>
    if js = joys.ptr i then (store joys i NULL false, true)
    else remove_scan js rest joys

/-- An event returned by `SDL_PollEvent`, with the values SDL returns while it is
handled: for `SDL_JOYDEVICEADDED`, `joystick` is the result of `SDL_JoystickOpen(which)`,
`name` of `SDL_JoystickName(joystick)`, `haptic` of `SDL_HapticOpenFromJoystick(joystick)`;
for `SDL_JOYDEVICEREMOVED`, `js` is the result of `SDL_JoystickFromInstanceID(which)`. -/
inductive event
  | SDL_QUIT
  | SDL_JOYDEVICEADDED (which : Int) (joystick name haptic : Ptr)
  | SDL_JOYDEVICEREMOVED (which : Int) (js : Ptr)
  | other
  deriving DecidableEq, Repr

/-- The `case SDL_JOYDEVICEADDED:` block of `sim`. -/
def joydevice_added (brk : Bool) (which : Int) (joystick name haptic : Ptr)
    (w : world) : world :=
  let w := emit (call.SDL_JoystickOpen which) w
  if joystick = NULL then w else
  let w := get_joystick_name brk joystick name w
  if !w.running then w else
  let w := emit (call.SDL_HapticOpenFromJoystick joystick) w
  let has_haptics : Bool := decide (haptic ≠ NULL)
  let w := if haptic ≠ NULL then emit (call.SDL_HapticClose haptic) w else w
  let r := add_scan joystick has_haptics slots w.joys
  let w := { w with joys := r.1 }
  let w := FTG_ASSERT brk assertion.found_added r.2 w
  if !w.running then w else
  emit (call.SDL_JoystickInstanceID joystick) w

/-- The `case SDL_JOYDEVICEREMOVED:` block of `sim`. -/
def joydevice_removed (brk : Bool) (which : Int) (js : Ptr) (w : world) : world :=
  let w := emit (call.SDL_JoystickFromInstanceID which) w
  let w := FTG_ASSERT brk assertion.js (decide (js ≠ NULL)) w
  if !w.running then w else
  let r := remove_scan js slots w.joys
  let w := { w with joys := r.1 }
  let w := FTG_ASSERT brk assertion.found_removed r.2 w
  if !w.running then w else
  emit (call.SDL_JoystickClose js) w

/-- The `switch (event.type)` of `sim`. -/
def handle_event (brk : Bool) (e : event) (w : world) : world :=
  match e with
  | event.SDL_QUIT => { w with quit := true }
  | event.SDL_JOYDEVICEADDED which joystick name haptic =>
      joydevice_added brk which joystick name haptic w
  | event.SDL_JOYDEVICEREMOVED which js => joydevice_removed brk which js w
  | event.other => w

/-- The `while (SDL_PollEvent(&event))` loop of `sim` over the pending events. -/
def poll_events (brk : Bool) : List event → world → world
  | [], w => w
  | e :: es, w => if w.running then poll_events brk es (handle_event brk e w) else w

/-- The body of `if (nk_button_label(nk, label))` under `disable xinput`: flip the
flag, restart the subsystems, clear the table. -/
def toggle_xinput (brk hint_ok init_ok : Bool) (w : world) : world :=
  let w := { w with g_enable_xinput := !w.g_enable_xinput }
  let w := restart_joystick_subsystems brk false w.g_enable_xinput hint_ok init_ok w
  if !w.running then w else
  { w with joys := init_joysticks w.joys }

/-- Log every call of a list, in order. -/
def emit_all (cs : List call) (w : world) : world :=
  cs.foldl (fun w c => emit c w) w

/-- What the calls made inside one `joystick_panel` return: `name` is the result of
`SDL_JoystickName(js)`, `window_open` of `nk_begin`, the three counts of
`SDL_JoystickNumButtons`, `SDL_JoystickNumAxes` and `SDL_JoystickNumHats`, `rumble` of
`nk_button_label(nk, "haptic feedback")`, `haptic` of `SDL_HapticOpenFromJoystick(js)`. -/
structure panel_input where
  name : Ptr
  window_open : Bool
  num_buttons : Int
  num_axes : Int
  num_hats : Int
  rumble : Bool
  haptic : Ptr

/-- The SDL calls of the body of `if (nk_begin(...))` in `joystick_panel`, in order:
metadata, buttons, axes, hats, and the rumble test when the device has haptics and
the button is pressed (strength 0.9 is left out of the record, length is 1000). -/
def panel_queries (p : panel_input) (js : Ptr) (has_haptics : Bool) : List call :=
  [call.SDL_JoystickGetGUID js, call.SDL_JoystickGetGUIDString,
    call.SDL_JoystickCurrentPowerLevel js, call.SDL_JoystickNumButtons js] ++
  (List.range p.num_buttons.toNat).map (call.SDL_JoystickGetButton js) ++
  [call.SDL_JoystickNumAxes js] ++
  (List.range p.num_axes.toNat).map (call.SDL_JoystickGetAxis js) ++
  [call.SDL_JoystickNumHats js] ++
  (List.range p.num_hats.toNat).map (call.SDL_JoystickGetHat js) ++
  (if has_haptics && p.rumble then
    [call.SDL_HapticOpenFromJoystick js, call.SDL_HapticRumbleInit p.haptic,
      call.SDL_HapticRumblePlay p.haptic 1000, call.SDL_Delay 1000,
      call.SDL_HapticClose p.haptic]
  else [])

/-- The function `joystick_panel(nk, js, device_index, instance_id, has_haptics)`: the
entry is logged with its arguments, the title needs `get_joystick_name(js)`, and the
body runs when `nk_begin` says the window is open. -/
def joystick_panel (brk : Bool) (p : panel_input) (js : Ptr) (device_index : Nat)
    (instance_id : Int) (has_haptics : Bool) (w : world) : world :=
  let w := emit (call.joystick_panel js device_index instance_id has_haptics) w
  let w := get_joystick_name brk js p.name w
  if !w.running then w else
  if p.window_open then emit_all (panel_queries p js has_haptics) w else w

/-- The final loop of `sim` over the indices still to visit: for each non-null slot
`SDL_JoystickInstanceID(joys->ptr[i])`, whose result is `instance_id_of (joys->ptr[i])`,
and then `joystick_panel`; the loop ends with the process. -/
def panel_loop (brk : Bool) (instance_id_of : Ptr → Int) (panels : Slot → panel_input) :
    List Slot → world → world
  | [], w => w
  | i :: rest, w =>
    if w.joys.ptr i = NULL then panel_loop brk instance_id_of panels rest w
    else
      let w1 := emit (call.SDL_JoystickInstanceID (w.joys.ptr i)) w
      let w2 := joystick_panel brk (panels i) (w.joys.ptr i) i.val
        (instance_id_of (w.joys.ptr i)) (w.joys.has_haptics i) w1
      if !w2.running then w2 else panel_loop brk instance_id_of panels rest w2

/-- What one call of `sim` receives from outside: the pending events, whether the
status window is open (`nk_begin`), whether the button was pressed, the results
of `SDL_SetHint` and `SDL_InitSubSystem` should the restart run, and per slot what
the calls inside its panel return. -/
structure frame where
  events : List event
  status_open : Bool
  button : Bool
  hint_ok : Bool
  init_ok : Bool
  panels : Slot → panel_input

/-- The "Joystick Status" window of `sim`: on `_WIN32` builds with xinput enabled, the
button `disable xinput` runs the toggle. -/
def status_window (brk win32 : Bool) (f : frame) (w : world) : world :=
  if f.status_open && win32 && w.g_enable_xinput && f.button then
    toggle_xinput brk f.hint_ok f.init_ok w
  else w

/-- The function `sim`: drain the events, draw the status window (on `_WIN32` builds with the
xinput button), then one panel per occupied slot. -/
def sim (brk win32 : Bool) (instance_id_of : Ptr → Int) (f : frame) (w : world) : world :=
  let w := poll_events brk f.events w
  if !w.running then w else
  let w := status_window brk win32 f w
  if !w.running then w else
  panel_loop brk instance_id_of f.panels slots w

/-- The joystick part of `init`: `init_joysticks`, then the first start of the
subsystems with `g_enable_xinput = true`. -/
def init (brk hint_ok init_ok : Bool) (garbage : joysticks) : world :=
  restart_joystick_subsystems brk true true hint_ok init_ok
    { joys := init_joysticks garbage, g_enable_xinput := true, quit := false,
      running := true, log := [] }

/-- The loop `while (!quit) { sim(...); render(...); }` of `main`, over the frames
that the outside world supplies. -/
def main_loop (brk win32 : Bool) (instance_id_of : Ptr → Int) : List frame → world → world
  | [], w => w
  | f :: fs, w =>
    if w.running && !w.quit then
      main_loop brk win32 instance_id_of fs (sim brk win32 instance_id_of f w)
    else w

/-! ## Observations on a state -/

/-- The calls of the log, in order, without the table snapshots. -/
def calls (w : world) : List call := w.log.map Prod.fst

/-- The assertions that failed so far, in order. -/
def failed_asserts (w : world) : List assertion :=
  (calls w).filterMap fun c =>
    match c with
    | call.FTG_ASSERT_failed a => some a
    | _ => none

/-- The handles given to `SDL_JoystickClose` so far, in order. -/
def closed_handles (w : world) : List Ptr :=
  (calls w).filterMap fun c =>
    match c with
    | call.SDL_JoystickClose js => some js
    | _ => none

/-- Whether a logged call is an entry into `joystick_panel`. -/
def is_panel_entry : call → Bool
  | call.joystick_panel _ _ _ _ => true
  | _ => false

/-- The entries into `joystick_panel` so far, in order: what was handed to the panel
renderer. -/
def panels_drawn (w : world) : List call :=
  (calls w).filter is_panel_entry

/-- The number of occupied (non-null) slots. -/
def occupied_count (joys : joysticks) : Nat :=
  (slots.filter fun i => decide (joys.ptr i ≠ NULL)).length

/-- No two occupied slots hold the same handle. -/
def slot_unique (joys : joysticks) : Prop :=
  ∀ i j : Slot, joys.ptr i ≠ NULL → joys.ptr i = joys.ptr j → i = j

/-- A free slot has its haptic flag cleared. -/
def free_slots_unflagged (joys : joysticks) : Prop :=
  ∀ i : Slot, joys.ptr i = NULL → joys.has_haptics i = false

/-- Along the run of `poll_events`, every `SDL_JOYDEVICEADDED` event that is handled
opens a handle that no slot holds at that moment. -/
def adds_fresh (brk : Bool) : List event → world → Prop
  | [], _ => True
  | e :: es, w =>
    if w.running then
      (match e with
        | event.SDL_JOYDEVICEADDED _ joystick _ _ => ∀ i : Slot, w.joys.ptr i ≠ joystick
        | _ => True) ∧
      adds_fresh brk es (handle_event brk e w)
    else True

/-- The handles that the `SDL_JOYDEVICEADDED` events of a list open. -/
def added_handles : List event → List Ptr
  | [] => []
  | event.SDL_JOYDEVICEADDED _ joystick _ _ :: es => joystick :: added_handles es
  | _ :: es => added_handles es

/-- A start state for examples: `init` on uninitialised memory, everything succeeding. -/
def boot : world := init true true true { ptr := fun _ => 3, has_haptics := fun _ => true }

/-- The state `boot` after one device (handle 7, named, no haptics) was added. -/
def one_device : world := poll_events true [event.SDL_JOYDEVICEADDED 0 7 1 0] boot

/-- Sixteen device-added events with the handles 1 to 16, all named, all with haptics. -/
def sixteen_adds : List event :=
  (List.range 16).map fun k => event.SDL_JOYDEVICEADDED (Int.ofNat k) (k + 1) 1 (k + 100)

/-- The state `boot` after sixteen devices were added: every slot is occupied. -/
def full_house : world := poll_events true sixteen_adds boot

/-- A panel input for examples: a named device with an open window, 2 buttons, 1 axis,
1 hat, the rumble button pressed. -/
def plain_panel : panel_input :=
  { name := 1, window_open := true, num_buttons := 2, num_axes := 1, num_hats := 1,
    rumble := true, haptic := 55 }

/-- A frame for examples: 7, 8 (with haptics) and 9 are added and 8 is removed again;
the xinput button is not pressed. -/
def three_in_one_out : frame :=
  { events := [event.SDL_JOYDEVICEADDED 0 7 1 0, event.SDL_JOYDEVICEADDED 1 8 1 5,
      event.SDL_JOYDEVICEADDED 2 9 1 6, event.SDL_JOYDEVICEREMOVED 1 8],
    status_open := true, button := false, hint_ok := true, init_ok := true,
    panels := fun _ => plain_panel }

/-! ## The visiting order of the loops -/

theorem slots_eq : slots = [0, 1, 2, 3, 4, 5, 6, 7, 8, 9, 10, 11, 12, 13, 14, 15] := by decide

theorem mem_slots (i : Slot) : i ∈ slots := List.mem_finRange i

theorem slots_sorted : slots.Pairwise (· < ·) := List.pairwise_lt_finRange _

/-- The first slot with a given property splits the visiting order: nothing before it
has the property, and everything of lower index comes before it. -/
theorem slots_split (p : Slot → Prop) [DecidablePred p] (h : ∃ i, p i) :
    ∃ pre i post, slots = pre ++ i :: post ∧ p i ∧ (∀ a ∈ pre, ¬ p a) ∧
      (∀ j, j < i → ¬ p j) := by
  obtain ⟨k, hk⟩ := h
  cases hf : slots.find? (fun i => decide (p i)) with
  | none =>
    rw [List.find?_eq_none] at hf
    exact absurd hk (by simpa using hf k (mem_slots k))
  | some i =>
    rw [List.find?_eq_some] at hf
    obtain ⟨hpi, pre, post, hsplit, hpre⟩ := hf
    have hpre2 : ∀ a ∈ pre, ¬ p a := fun a ha => by simpa using hpre a ha
    refine ⟨pre, i, post, hsplit, by simpa using hpi, hpre2, ?_⟩
    intro j hj
    have hmem : j ∈ pre ++ i :: post := hsplit ▸ mem_slots j
    have hsorted := slots_sorted
    rw [hsplit, List.pairwise_append] at hsorted
    rcases List.mem_append.1 hmem with hjp | hjp
    · exact hpre2 j hjp
    · rcases List.mem_cons.1 hjp with hji | hjpost
      · exact absurd hji (Fin.ne_of_lt hj)
      · have := (List.pairwise_cons.1 hsorted.2.1).1 j hjpost
        exact absurd hj (not_lt.2 (le_of_lt this))

/-! ## The two scans -/

theorem add_scan_append (joystick : Ptr) (hh : Bool) (joys : joysticks)
    (pre : List Slot) (i : Slot) (post : List Slot)
    (hpre : ∀ a ∈ pre, joys.ptr a ≠ NULL) (hi : joys.ptr i = NULL) :
    add_scan joystick hh (pre ++ i :: post) joys = (store joys i joystick hh, true) := by
  induction pre with
  | nil => simp [add_scan, hi]
  | cons a pre ih =>
    have ha : joys.ptr a ≠ NULL := hpre a (List.mem_cons_self _ _)
    simp only [List.cons_append, add_scan, if_neg ha]
    exact ih (fun b hb => hpre b (List.mem_cons_of_mem _ hb))

theorem add_scan_full (joystick : Ptr) (hh : Bool) (joys : joysticks)
    (l : List Slot) (hfull : ∀ a ∈ l, joys.ptr a ≠ NULL) :
    add_scan joystick hh l joys = (joys, false) := by
  induction l with
  | nil => rfl
  | cons a l ih =>
    have ha : joys.ptr a ≠ NULL := hfull a (List.mem_cons_self _ _)
    simp only [add_scan, if_neg ha]
    exact ih (fun b hb => hfull b (List.mem_cons_of_mem _ hb))

theorem remove_scan_append (js : Ptr) (joys : joysticks)
    (pre : List Slot) (i : Slot) (post : List Slot)
    (hpre : ∀ a ∈ pre, ¬ js = joys.ptr a) (hi : js = joys.ptr i) :
    remove_scan js (pre ++ i :: post) joys = (store joys i NULL false, true) := by
  induction pre with
  | nil => simp [remove_scan, hi]
  | cons a pre ih =>
    have ha : ¬ js = joys.ptr a := hpre a (List.mem_cons_self _ _)
    simp only [List.cons_append, remove_scan, if_neg ha]
    exact ih (fun b hb => hpre b (List.mem_cons_of_mem _ hb))

theorem remove_scan_absent (js : Ptr) (joys : joysticks)
    (l : List Slot) (habs : ∀ a ∈ l, ¬ js = joys.ptr a) :
    remove_scan js l joys = (joys, false) := by
  induction l with
  | nil => rfl
  | cons a l ih =>
    have ha : ¬ js = joys.ptr a := habs a (List.mem_cons_self _ _)
    simp only [remove_scan, if_neg ha]
    exact ih (fun b hb => habs b (List.mem_cons_of_mem _ hb))

/-- With a free slot, the add loop stores at the lowest free index. -/
theorem add_scan_free (joystick : Ptr) (hh : Bool) (joys : joysticks)
    (hfree : ∃ i, joys.ptr i = NULL) :
    ∃ i, joys.ptr i = NULL ∧ (∀ j, j < i → joys.ptr j ≠ NULL) ∧
      add_scan joystick hh slots joys = (store joys i joystick hh, true) := by
  obtain ⟨pre, i, post, hsplit, hi, hpre, hlt⟩ := slots_split (fun i => joys.ptr i = NULL) hfree
  exact ⟨i, hi, hlt, by rw [hsplit]; exact add_scan_append joystick hh joys pre i post hpre hi⟩

/-- When `js` is in the table, the remove loop clears the lowest slot that holds it. -/
theorem remove_scan_present (js : Ptr) (joys : joysticks)
    (hin : ∃ i, js = joys.ptr i) :
    ∃ i, js = joys.ptr i ∧ (∀ j, j < i → ¬ js = joys.ptr j) ∧
      remove_scan js slots joys = (store joys i NULL false, true) := by
  obtain ⟨pre, i, post, hsplit, hi, hpre, hlt⟩ := slots_split (fun i => js = joys.ptr i) hin
  exact ⟨i, hi, hlt, by rw [hsplit]; exact remove_scan_append js joys pre i post hpre hi⟩

/-- Whatever the add loop does, it is either nothing or one store into a free slot. -/
theorem add_scan_cases (joystick : Ptr) (hh : Bool) (joys : joysticks) (l : List Slot) :
    add_scan joystick hh l joys = (joys, false) ∨
    ∃ i, joys.ptr i = NULL ∧ add_scan joystick hh l joys = (store joys i joystick hh, true) := by
  induction l with
  | nil => exact Or.inl rfl
  | cons a l ih =>
    by_cases ha : joys.ptr a = NULL
    · exact Or.inr ⟨a, ha, by simp [add_scan, ha]⟩
    · simpa [add_scan, ha] using ih

/-- Whatever the remove loop does, it is either nothing or the clearing of a slot
that holds `js`. -/
theorem remove_scan_cases (js : Ptr) (joys : joysticks) (l : List Slot) :
    remove_scan js l joys = (joys, false) ∨
    ∃ i, js = joys.ptr i ∧ remove_scan js l joys = (store joys i NULL false, true) := by
  induction l with
  | nil => exact Or.inl rfl
  | cons a l ih =>
    by_cases ha : js = joys.ptr a
    · exact Or.inr ⟨a, ha, by simp [remove_scan, ha]⟩
    · simpa [remove_scan, ha] using ih

@[simp]
theorem store_ptr_same (joys : joysticks) (i : Slot) (p : Ptr) (b : Bool) :
    (store joys i p b).ptr i = p := by simp [store]

@[simp]
theorem store_flag_same (joys : joysticks) (i : Slot) (p : Ptr) (b : Bool) :
    (store joys i p b).has_haptics i = b := by simp [store]

theorem store_ptr_other (joys : joysticks) (i j : Slot) (p : Ptr) (b : Bool) (h : j ≠ i) :
    (store joys i p b).ptr j = joys.ptr j := by simp [store, Function.update_noteq h]

theorem store_flag_other (joys : joysticks) (i j : Slot) (p : Ptr) (b : Bool) (h : j ≠ i) :
    (store joys i p b).has_haptics j = joys.has_haptics j := by
  simp [store, Function.update_noteq h]

/-! ## The two hot-plug handlers -/

/-- The table after the add handler is the old one or the result of the scan. -/
theorem joydevice_added_joys_cases (brk : Bool) (which : Int) (joystick name haptic : Ptr)
    (w : world) :
    (joydevice_added brk which joystick name haptic w).joys = w.joys ∨
    (joydevice_added brk which joystick name haptic w).joys =
      (add_scan joystick (decide (haptic ≠ NULL)) slots w.joys).1 := by
  by_cases hopen : joystick = NULL
  · left; simp [joydevice_added, emit, hopen]
  · by_cases hn : name = NULL <;> by_cases hh : haptic = NULL <;>
    cases hf : (add_scan joystick (decide (haptic ≠ NULL)) slots w.joys).2 <;>
    cases brk <;> cases hrun : w.running <;>
    simp [joydevice_added, get_joystick_name, FTG_BREAK, FTG_ASSERT, emit, hopen, hn, hh,
      hrun, hf] <;> simp_all

theorem joydevice_added_joys (brk : Bool) (which : Int) (joystick name haptic : Ptr) (w : world)
    (hrun : w.running = true) (hopen : joystick ≠ NULL) (hname : name = NULL → brk = false) :
    (joydevice_added brk which joystick name haptic w).joys =
      (add_scan joystick (decide (haptic ≠ NULL)) slots w.joys).1 := by
  by_cases hn : name = NULL
  · have hb := hname hn
    subst hb
    by_cases hh : haptic = NULL <;>
    cases hf : (add_scan joystick (decide (haptic ≠ NULL)) slots w.joys).2 <;>
    simp [joydevice_added, get_joystick_name, FTG_BREAK, FTG_ASSERT, emit, hopen, hn, hh,
      hrun, hf] <;> simp_all
  · by_cases hh : haptic = NULL <;>
    cases hf : (add_scan joystick (decide (haptic ≠ NULL)) slots w.joys).2 <;> cases brk <;>
    simp [joydevice_added, get_joystick_name, FTG_BREAK, FTG_ASSERT, emit, hopen, hn, hh,
      hrun, hf] <;> simp_all

theorem joydevice_added_running (brk : Bool) (which : Int) (joystick name haptic : Ptr)
    (w : world) (hrun : w.running = true) (hname : name = NULL → brk = false)
    (hfound : (add_scan joystick (decide (haptic ≠ NULL)) slots w.joys).2 = true) :
    (joydevice_added brk which joystick name haptic w).running = true := by
  by_cases hopen : joystick = NULL
  · simp [joydevice_added, emit, hopen, hrun]
  · by_cases hn : name = NULL
    · have hb := hname hn
      subst hb
      by_cases hh : haptic = NULL <;>
      simp [joydevice_added, get_joystick_name, FTG_BREAK, FTG_ASSERT, emit, hopen, hn, hh,
        hrun, hfound] <;> simp_all
    · by_cases hh : haptic = NULL <;>
      simp [joydevice_added, get_joystick_name, FTG_BREAK, FTG_ASSERT, emit, hopen, hn, hh,
        hrun, hfound] <;> simp_all

theorem joydevice_added_failed (brk : Bool) (which : Int) (joystick name haptic : Ptr)
    (w : world) (hrun : w.running = true) (hopen : joystick ≠ NULL)
    (hname : name = NULL → brk = false) :
    failed_asserts (joydevice_added brk which joystick name haptic w) =
      failed_asserts w ++
        (if (add_scan joystick (decide (haptic ≠ NULL)) slots w.joys).2 then []
         else [assertion.found_added]) := by
  by_cases hn : name = NULL
  · have hb := hname hn
    subst hb
    by_cases hh : haptic = NULL <;>
    cases hf : (add_scan joystick (decide (haptic ≠ NULL)) slots w.joys).2 <;>
    simp [joydevice_added, get_joystick_name, FTG_BREAK, FTG_ASSERT, emit, hopen, hn, hh,
      hrun, hf, failed_asserts, calls] <;> simp_all
  · by_cases hh : haptic = NULL <;>
    cases hf : (add_scan joystick (decide (haptic ≠ NULL)) slots w.joys).2 <;> cases brk <;>
    simp [joydevice_added, get_joystick_name, FTG_BREAK, FTG_ASSERT, emit, hopen, hn, hh,
      hrun, hf, failed_asserts, calls] <;> simp_all

theorem joydevice_added_closed (brk : Bool) (which : Int) (joystick name haptic : Ptr)
    (w : world) :
    closed_handles (joydevice_added brk which joystick name haptic w) = closed_handles w := by
  by_cases hopen : joystick = NULL
  · simp [joydevice_added, emit, hopen, closed_handles, calls]
  · by_cases hn : name = NULL <;> by_cases hh : haptic = NULL <;>
    cases hf : (add_scan joystick (decide (haptic ≠ NULL)) slots w.joys).2 <;>
    cases brk <;> cases hrun : w.running <;>
    simp [joydevice_added, get_joystick_name, FTG_BREAK, FTG_ASSERT, emit, hopen, hn, hh,
      hrun, hf, closed_handles, calls] <;> simp_all

/-- The table after the remove handler is the old one or the result of the scan. -/
theorem joydevice_removed_joys_cases (brk : Bool) (which : Int) (js : Ptr) (w : world) :
    (joydevice_removed brk which js w).joys = w.joys ∨
    (joydevice_removed brk which js w).joys = (remove_scan js slots w.joys).1 := by
  by_cases hjs : js = NULL <;>
  cases hf : (remove_scan js slots w.joys).2 <;>
  cases brk <;> cases hrun : w.running <;>
  simp [joydevice_removed, FTG_BREAK, FTG_ASSERT, emit, hjs, hrun, hf] <;> simp_all

theorem joydevice_removed_joys (brk : Bool) (which : Int) (js : Ptr) (w : world)
    (hrun : w.running = true) (hjs : js ≠ NULL ∨ brk = false) :
    (joydevice_removed brk which js w).joys = (remove_scan js slots w.joys).1 := by
  by_cases hnull : js = NULL
  · have hb : brk = false := hjs.resolve_left (fun h => h hnull)
    subst hb
    cases hf : (remove_scan js slots w.joys).2 <;>
    simp [joydevice_removed, FTG_BREAK, FTG_ASSERT, emit, hnull, hrun, hf] <;> simp_all
  · cases hf : (remove_scan js slots w.joys).2 <;> cases brk <;>
    simp [joydevice_removed, FTG_BREAK, FTG_ASSERT, emit, hnull, hrun, hf]

/-- Removing a handle that the scan finds: the process goes on, no assertion fails,
and the handle is closed once. -/
theorem joydevice_removed_found (brk : Bool) (which : Int) (js : Ptr) (w : world)
    (hrun : w.running = true) (hjs : js ≠ NULL)
    (hfound : (remove_scan js slots w.joys).2 = true) :
    (joydevice_removed brk which js w).running = true ∧
    failed_asserts (joydevice_removed brk which js w) = failed_asserts w ∧
    closed_handles (joydevice_removed brk which js w) = closed_handles w ++ [js] := by
  simp [joydevice_removed, FTG_BREAK, FTG_ASSERT, emit, hjs, hrun, hfound, failed_asserts,
    closed_handles, calls]

/-- Removing a handle that is null or that the scan does not find: an assertion fails. -/
theorem joydevice_removed_error (brk : Bool) (which : Int) (js : Ptr) (w : world)
    (hrun : w.running = true)
    (hbad : js = NULL ∨ (remove_scan js slots w.joys).2 = false) :
    ∃ a rest, failed_asserts (joydevice_removed brk which js w) =
      failed_asserts w ++ a :: rest := by
  by_cases hnull : js = NULL
  · refine ⟨assertion.js, ?_⟩
    cases hf : (remove_scan js slots w.joys).2 <;> cases brk <;>
    simp [joydevice_removed, FTG_BREAK, FTG_ASSERT, emit, hnull, hrun, hf, failed_asserts,
      calls] <;> simp_all
  · have hf : (remove_scan js slots w.joys).2 = false := hbad.resolve_left hnull
    refine ⟨assertion.found_removed, [], ?_⟩
    cases brk <;>
    simp [joydevice_removed, FTG_BREAK, FTG_ASSERT, emit, hnull, hrun, hf, failed_asserts,
      calls]

theorem poll_events_cons (brk : Bool) (e : event) (es : List event) (w : world)
    (hrun : w.running = true) :
    poll_events brk (e :: es) w = poll_events brk es (handle_event brk e w) := by
  simp [poll_events, hrun]

/-! ## The claims -/

/-- C1. When the table has a free slot and `SDL_JoystickOpen` returned a handle, the
`SDL_JOYDEVICEADDED` handler stores the handle (and its haptic flag) at the lowest
free index and leaves every other slot as it was.  From the empty table, adding A,
adding B, removing A, adding C puts C at index 0, where A was, and not at index 2.
The hypothesis on `name` says that the handler gets as far as its loop: a device
without a name reaches `FTG_BREAK()` in `get_joystick_name`. -/
theorem C1_added_takes_lowest_free_slot :
    (∀ (brk : Bool) (w : world) (which : Int) (joystick name haptic : Ptr),
      w.running = true → joystick ≠ NULL → (name = NULL → brk = false) →
      (∃ i, w.joys.ptr i = NULL) →
      ∃ i : Slot, w.joys.ptr i = NULL ∧ (∀ j, j < i → w.joys.ptr j ≠ NULL) ∧
        (joydevice_added brk which joystick name haptic w).joys.ptr i = joystick ∧
        (joydevice_added brk which joystick name haptic w).joys.has_haptics i
          = decide (haptic ≠ NULL) ∧
        ∀ j, j ≠ i →
          (joydevice_added brk which joystick name haptic w).joys.ptr j = w.joys.ptr j ∧
          (joydevice_added brk which joystick name haptic w).joys.has_haptics j
            = w.joys.has_haptics j) ∧
    (∀ (brk : Bool) (w : world) (g : joysticks) (dA dB dC idA : Int)
      (A B C nA nB nC hA hB hC : Ptr),
      w.running = true → w.joys = init_joysticks g →
      A ≠ NULL → B ≠ NULL → C ≠ NULL →
      (nA = NULL → brk = false) → (nB = NULL → brk = false) → (nC = NULL → brk = false) →
      (poll_events brk [event.SDL_JOYDEVICEADDED dA A nA hA,
          event.SDL_JOYDEVICEADDED dB B nB hB] w).joys.ptr 0 = A ∧
      (poll_events brk [event.SDL_JOYDEVICEADDED dA A nA hA,
          event.SDL_JOYDEVICEADDED dB B nB hB] w).joys.ptr 1 = B ∧
      (poll_events brk [event.SDL_JOYDEVICEADDED dA A nA hA,
          event.SDL_JOYDEVICEADDED dB B nB hB, event.SDL_JOYDEVICEREMOVED idA A,
          event.SDL_JOYDEVICEADDED dC C nC hC] w).joys.ptr 0 = C ∧
      (poll_events brk [event.SDL_JOYDEVICEADDED dA A nA hA,
          event.SDL_JOYDEVICEADDED dB B nB hB, event.SDL_JOYDEVICEREMOVED idA A,
          event.SDL_JOYDEVICEADDED dC C nC hC] w).joys.ptr 2 ≠ C) := by
  constructor
  · intro brk w which joystick name haptic hrun hopen hname hfree
    obtain ⟨i, hi, hlt, hscan⟩ := add_scan_free joystick (decide (haptic ≠ NULL)) w.joys hfree
    have hj := joydevice_added_joys brk which joystick name haptic w hrun hopen hname
    rw [hscan] at hj
    refine ⟨i, hi, hlt, ?_, ?_, ?_⟩
    · rw [hj]; exact store_ptr_same _ _ _ _
    · rw [hj]; exact store_flag_same _ _ _ _
    · intro j hji
      rw [hj]
      exact ⟨store_ptr_other _ _ _ _ _ hji, store_flag_other _ _ _ _ _ hji⟩
  · intro brk w g dA dB dC idA A B C nA nB nC hA hB hC hrun hw hA0 hB0 hC0 hnA hnB hnC
    -- first add
    have e1 : (joydevice_added brk dA A nA hA w).joys =
        store (init_joysticks g) 0 A (decide (hA ≠ NULL)) := by
      rw [joydevice_added_joys brk dA A nA hA w hrun hA0 hnA, hw, slots_eq]
      simp [add_scan, init_joysticks]
    have r1 : (joydevice_added brk dA A nA hA w).running = true := by
      apply joydevice_added_running brk dA A nA hA w hrun hnA
      rw [hw, slots_eq]; simp [add_scan, init_joysticks]
    -- second add
    have e2 : (joydevice_added brk dB B nB hB (joydevice_added brk dA A nA hA w)).joys =
        store (store (init_joysticks g) 0 A (decide (hA ≠ NULL))) 1 B (decide (hB ≠ NULL)) := by
      rw [joydevice_added_joys brk dB B nB hB _ r1 hB0 hnB, e1, slots_eq]
      simp [add_scan, init_joysticks, store, hA0]
    have r2 : (joydevice_added brk dB B nB hB (joydevice_added brk dA A nA hA w)).running
        = true := by
      apply joydevice_added_running brk dB B nB hB _ r1 hnB
      rw [e1, slots_eq]; simp [add_scan, init_joysticks, store, hA0]
    -- remove A
    have hscan3 : remove_scan A slots
        (store (store (init_joysticks g) 0 A (decide (hA ≠ NULL))) 1 B (decide (hB ≠ NULL))) =
        (store (store (store (init_joysticks g) 0 A (decide (hA ≠ NULL))) 1 B
          (decide (hB ≠ NULL))) 0 NULL false, true) := by
      rw [slots_eq]; simp [remove_scan, init_joysticks, store]
    have e3 : (joydevice_removed brk idA A
        (joydevice_added brk dB B nB hB (joydevice_added brk dA A nA hA w))).joys =
        store (store (store (init_joysticks g) 0 A (decide (hA ≠ NULL))) 1 B
          (decide (hB ≠ NULL))) 0 NULL false := by
      rw [joydevice_removed_joys brk idA A _ r2 (Or.inl hA0), e2, hscan3]
    have r3 : (joydevice_removed brk idA A
        (joydevice_added brk dB B nB hB (joydevice_added brk dA A nA hA w))).running = true := by
      apply (joydevice_removed_found brk idA A _ r2 hA0 _).1
      rw [e2, hscan3]
    -- add C
    have e4 : (joydevice_added brk dC C nC hC (joydevice_removed brk idA A
        (joydevice_added brk dB B nB hB (joydevice_added brk dA A nA hA w)))).joys =
        store (store (store (store (init_joysticks g) 0 A (decide (hA ≠ NULL))) 1 B
          (decide (hB ≠ NULL))) 0 NULL false) 0 C (decide (hC ≠ NULL)) := by
      rw [joydevice_added_joys brk dC C nC hC _ r3 hC0 hnC, e3, slots_eq]
      simp [add_scan, init_joysticks, store]
    simp only [poll_events, handle_event, hrun, r1, r2, r3, if_true, e2, e4]
    refine ⟨?_, ?_, ?_, ?_⟩
    · simp [store, Function.update]
    · simp [store]
    · simp [store]
    · simp [store, init_joysticks, Function.update]
      exact fun h => hC0 h.symm

/-- C2. When `js` is a non-null handle held in some slot, the `SDL_JOYDEVICEREMOVED`
handler empties the lowest slot that holds it (pointer `NULL`, haptic flag false),
leaves every other slot as it was, and calls `SDL_JoystickClose(js)` exactly once and
nothing else is closed; no assertion fails and the process goes on. -/
theorem C2_removed_empties_slot_and_closes_once
    (brk : Bool) (w : world) (which : Int) (js : Ptr)
    (hrun : w.running = true) (hjs : js ≠ NULL) (hin : ∃ i, w.joys.ptr i = js) :
    ∃ i : Slot, w.joys.ptr i = js ∧ (∀ j, j < i → w.joys.ptr j ≠ js) ∧
      (joydevice_removed brk which js w).joys.ptr i = NULL ∧
      (joydevice_removed brk which js w).joys.has_haptics i = false ∧
      (∀ j, j ≠ i →
        (joydevice_removed brk which js w).joys.ptr j = w.joys.ptr j ∧
        (joydevice_removed brk which js w).joys.has_haptics j = w.joys.has_haptics j) ∧
      closed_handles (joydevice_removed brk which js w) = closed_handles w ++ [js] ∧
      failed_asserts (joydevice_removed brk which js w) = failed_asserts w ∧
      (joydevice_removed brk which js w).running = true := by
  obtain ⟨k, hk⟩ := hin
  obtain ⟨i, hi, hlt, hscan⟩ := remove_scan_present js w.joys ⟨k, hk.symm⟩
  have hj := joydevice_removed_joys brk which js w hrun (Or.inl hjs)
  have hfound : (remove_scan js slots w.joys).2 = true := by rw [hscan]
  obtain ⟨hr, hf, hc⟩ := joydevice_removed_found brk which js w hrun hjs hfound
  rw [hscan] at hj
  refine ⟨i, hi.symm, fun j hji h => hlt j hji h.symm, ?_, ?_, ?_, hc, hf, hr⟩
  · rw [hj]; exact store_ptr_same _ _ _ _
  · rw [hj]; exact store_flag_same _ _ _ _
  · intro j hji
    rw [hj]
    exact ⟨store_ptr_other _ _ _ _ _ hji, store_flag_other _ _ _ _ _ hji⟩

/-- C3. When all 16 slots are occupied and `SDL_JoystickOpen` returned a handle for a
further device, the `SDL_JOYDEVICEADDED` handler ends in the failure of
`FTG_ASSERT(found)` (the way this program reports that no slot is left), and all 16
pointers and all 16 haptic flags are as before.  The hypothesis on `name` says that
the handler gets as far as its loop. -/
theorem C3_added_to_full_table
    (brk : Bool) (w : world) (which : Int) (joystick name haptic : Ptr)
    (hrun : w.running = true) (hopen : joystick ≠ NULL) (hname : name = NULL → brk = false)
    (hfull : ∀ i, w.joys.ptr i ≠ NULL) :
    failed_asserts (joydevice_added brk which joystick name haptic w)
      = failed_asserts w ++ [assertion.found_added] ∧
    ∀ i, (joydevice_added brk which joystick name haptic w).joys.ptr i = w.joys.ptr i ∧
      (joydevice_added brk which joystick name haptic w).joys.has_haptics i
        = w.joys.has_haptics i := by
  have hscan := add_scan_full joystick (decide (haptic ≠ NULL)) w.joys slots
    (fun a _ => hfull a)
  have hj := joydevice_added_joys brk which joystick name haptic w hrun hopen hname
  have hf := joydevice_added_failed brk which joystick name haptic w hrun hopen hname
  rw [hscan] at hj hf
  refine ⟨by simpa using hf, fun i => ?_⟩
  rw [hj]
  exact ⟨rfl, rfl⟩

theorem store_null_free (joys : joysticks) (i : Slot) (hwf : free_slots_unflagged joys)
    (hi : joys.ptr i = NULL) : store joys i NULL false = joys := by
  cases joys with
  | mk ptr has_haptics =>
    have h1 : Function.update ptr i NULL = ptr := by
      rw [Function.update_eq_self_iff]; exact hi.symm
    have h2 : Function.update has_haptics i false = has_haptics := by
      rw [Function.update_eq_self_iff]; exact (hwf i hi).symm
    simp [store, h1, h2]

/-- Removing a handle that no occupied slot holds leaves a table with unflagged free
slots as it is, and an assertion fails. -/
theorem joydevice_removed_unknown (brk : Bool) (w : world) (which : Int) (js : Ptr)
    (hrun : w.running = true) (hwf : free_slots_unflagged w.joys)
    (habs : ∀ i, w.joys.ptr i ≠ NULL → w.joys.ptr i ≠ js) :
    (∃ a rest, failed_asserts (joydevice_removed brk which js w)
        = failed_asserts w ++ a :: rest) ∧
    (joydevice_removed brk which js w).joys = w.joys := by
  constructor
  · apply joydevice_removed_error brk which js w hrun
    by_cases hnull : js = NULL
    · exact Or.inl hnull
    · right
      rw [remove_scan_absent js w.joys slots]
      intro a _ ha
      exact habs a (by rw [← ha]; exact hnull) ha.symm
  · rcases joydevice_removed_joys_cases brk which js w with h | h
    · exact h
    · rw [h]
      rcases remove_scan_cases js w.joys slots with h2 | ⟨i, hi, h2⟩
      · rw [h2]
      · rw [h2]
        have hnull : w.joys.ptr i = NULL := by
          by_contra hne
          exact habs i hne hi.symm
        have hjs : js = NULL := hi.trans hnull
        subst hjs
        exact store_null_free w.joys i hwf hnull

/-- C4. When no occupied slot holds the handle that `SDL_JoystickFromInstanceID` returns
for the identifier (it is null, or it is in no slot), the `SDL_JOYDEVICEREMOVED` handler
ends in a failed assertion (`FTG_ASSERT(js)` or `FTG_ASSERT(found)`) and the table is
unchanged, for every table whose free slots have a cleared haptic flag, as all tables
built by this program do.  On the empty table, removing identifier 42 is such an error
and the number of occupied slots stays 0. -/
theorem C4_removed_unknown_is_error :
    (∀ (brk : Bool) (w : world) (which : Int) (js : Ptr),
      w.running = true → free_slots_unflagged w.joys →
      (∀ i, w.joys.ptr i ≠ NULL → w.joys.ptr i ≠ js) →
      (∃ a rest, failed_asserts (joydevice_removed brk which js w)
          = failed_asserts w ++ a :: rest) ∧
      (joydevice_removed brk which js w).joys = w.joys) ∧
    (∀ (brk : Bool) (w : world) (g : joysticks) (js : Ptr),
      w.running = true → w.joys = init_joysticks g →
      (∃ a rest, failed_asserts (joydevice_removed brk 42 js w)
          = failed_asserts w ++ a :: rest) ∧
      occupied_count (joydevice_removed brk 42 js w).joys = 0) := by
  constructor
  · intro brk w which js hrun hwf habs
    exact joydevice_removed_unknown brk w which js hrun hwf habs
  · intro brk w g js hrun hw
    have hwf : free_slots_unflagged w.joys := by
      intro i _; rw [hw]; rfl
    have habs : ∀ i, w.joys.ptr i ≠ NULL → w.joys.ptr i ≠ js := by
      intro i hi; rw [hw] at hi; exact absurd rfl hi
    obtain ⟨he, hj⟩ := joydevice_removed_unknown brk w 42 js hrun hwf habs
    refine ⟨he, ?_⟩
    rw [hj, hw]
    simp [occupied_count, init_joysticks]

theorem slot_unique_store_fresh (joys : joysticks) (i : Slot) (p : Ptr) (b : Bool)
    (hu : slot_unique joys) (hfresh : ∀ k, joys.ptr k ≠ p) :
    slot_unique (store joys i p b) := by
  intro a c ha hac
  by_cases hai : a = i
  · by_cases hci : c = i
    · rw [hai, hci]
    · rw [hai, store_ptr_same, store_ptr_other _ _ _ _ _ hci] at hac
      exact absurd hac.symm (hfresh c)
  · by_cases hci : c = i
    · rw [hci, store_ptr_same, store_ptr_other _ _ _ _ _ hai] at hac
      exact absurd hac (hfresh a)
    · rw [store_ptr_other _ _ _ _ _ hai] at ha hac
      rw [store_ptr_other _ _ _ _ _ hci] at hac
      exact hu a c ha hac

theorem slot_unique_store_null (joys : joysticks) (i : Slot) (b : Bool)
    (hu : slot_unique joys) : slot_unique (store joys i NULL b) := by
  intro a c ha hac
  by_cases hai : a = i
  · rw [hai, store_ptr_same] at ha
    exact absurd rfl ha
  · rw [store_ptr_other _ _ _ _ _ hai] at ha hac
    by_cases hci : c = i
    · rw [hci, store_ptr_same] at hac
      exact absurd hac ha
    · rw [store_ptr_other _ _ _ _ _ hci] at hac
      exact hu a c ha hac

theorem slot_unique_added (brk : Bool) (which : Int) (joystick name haptic : Ptr) (w : world)
    (hu : slot_unique w.joys) (hfresh : ∀ k, w.joys.ptr k ≠ joystick) :
    slot_unique (joydevice_added brk which joystick name haptic w).joys := by
  rcases joydevice_added_joys_cases brk which joystick name haptic w with h | h
  · rw [h]; exact hu
  · rw [h]
    rcases add_scan_cases joystick (decide (haptic ≠ NULL)) w.joys slots with h2 | ⟨i, _, h2⟩
    · rw [h2]; exact hu
    · rw [h2]; exact slot_unique_store_fresh _ _ _ _ hu hfresh

theorem slot_unique_removed (brk : Bool) (which : Int) (js : Ptr) (w : world)
    (hu : slot_unique w.joys) : slot_unique (joydevice_removed brk which js w).joys := by
  rcases joydevice_removed_joys_cases brk which js w with h | h
  · rw [h]; exact hu
  · rw [h]
    rcases remove_scan_cases js w.joys slots with h2 | ⟨i, _, h2⟩
    · rw [h2]; exact hu
    · rw [h2]; exact slot_unique_store_null _ _ _ hu

theorem slot_unique_poll_events (brk : Bool) (evs : List event) (w : world)
    (hu : slot_unique w.joys) (hfresh : adds_fresh brk evs w) :
    slot_unique (poll_events brk evs w).joys := by
  induction evs generalizing w with
  | nil => exact hu
  | cons e es ih =>
    by_cases hrun : w.running = true
    · rw [poll_events_cons brk e es w hrun]
      simp only [adds_fresh, hrun, if_true] at hfresh
      apply ih _ _ hfresh.2
      cases e with
      | SDL_QUIT => exact hu
      | SDL_JOYDEVICEADDED which joystick name haptic =>
        exact slot_unique_added brk which joystick name haptic w hu hfresh.1
      | SDL_JOYDEVICEREMOVED which js => exact slot_unique_removed brk which js w hu
      | other => exact hu
    · simp only [poll_events, hrun]
      exact hu

/-- C5, as the code has it.  Starting from the empty table of `init_joysticks`, after
every finite sequence of device-added and device-removed events in which each
device-added event opens a handle that no slot holds at that moment, no two occupied
slots hold the same handle. -/
theorem C5_slot_unique_for_fresh_handles
    (brk : Bool) (evs : List event) (w : world) (g : joysticks)
    (hw : w.joys = init_joysticks g) (hfresh : adds_fresh brk evs w) :
    slot_unique (poll_events brk evs w).joys := by
  apply slot_unique_poll_events brk evs w _ hfresh
  intro i j hi _
  rw [hw] at hi
  exact absurd rfl hi

/-- C5, as stated, fails: two device-added events for which `SDL_JoystickOpen` returns
the same handle 7 leave that handle in slot 0 and in slot 1. -/
theorem C5_same_handle_twice_fills_two_slots :
    ¬ slot_unique (poll_events true
        [event.SDL_JOYDEVICEADDED 0 7 1 0, event.SDL_JOYDEVICEADDED 0 7 1 0] boot).joys := by
  intro h
  exact absurd (h 0 1 (by decide) (by decide)) (by decide)

/-- The restart as the code performs it, when `SDL_SetHint` and `SDL_InitSubSystem`
succeed. -/
theorem toggle_xinput_ok (brk : Bool) (w : world) (hrun : w.running = true) :
    toggle_xinput brk true true w =
      { joys := init_joysticks w.joys, g_enable_xinput := !w.g_enable_xinput,
        quit := w.quit, running := true,
        log := w.log ++ [(call.SDL_SetHint_XINPUT_ENABLED (!w.g_enable_xinput), w.joys),
          (call.SDL_QuitSubSystem, w.joys), (call.SDL_InitSubSystem, w.joys)] } := by
  simp [toggle_xinput, restart_joystick_subsystems, FTG_ASSERT, emit, hrun]

/-- C6, as the code has it.  During the xinput toggle, with `SDL_SetHint` and
`SDL_InitSubSystem` succeeding, the mode flag is flipped, the hint is set to the
flipped flag, then `SDL_QuitSubSystem` and `SDL_InitSubSystem` are called while the
table still holds what it held, no `SDL_JoystickClose` is issued, and only after the
re-initialization is the table fully cleared. -/
theorem C6_toggle_restarts_then_clears
    (brk : Bool) (w : world) (hrun : w.running = true) :
    (toggle_xinput brk true true w).log =
      w.log ++ [(call.SDL_SetHint_XINPUT_ENABLED (!w.g_enable_xinput), w.joys),
        (call.SDL_QuitSubSystem, w.joys), (call.SDL_InitSubSystem, w.joys)] ∧
    (toggle_xinput brk true true w).g_enable_xinput = !w.g_enable_xinput ∧
    closed_handles (toggle_xinput brk true true w) = closed_handles w ∧
    (∀ i, (toggle_xinput brk true true w).joys.ptr i = NULL ∧
      (toggle_xinput brk true true w).joys.has_haptics i = false) ∧
    (toggle_xinput brk true true w).running = true := by
  rw [toggle_xinput_ok brk w hrun]
  refine ⟨rfl, rfl, ?_, fun i => ⟨rfl, rfl⟩, rfl⟩
  simp [closed_handles, calls]

/-- C6, as stated, fails: with handle 7 in slot 0, the toggle reaches
`SDL_QuitSubSystem` while slot 0 still holds 7, and 7 is never given to
`SDL_JoystickClose`. -/
theorem C6_quit_before_clear_and_no_close :
    (∃ entry ∈ (toggle_xinput true true true
        (poll_events true [event.SDL_JOYDEVICEADDED 0 7 1 0] boot)).log,
      entry.1 = call.SDL_QuitSubSystem ∧ entry.2.ptr 0 = 7) ∧
    call.SDL_JoystickClose 7 ∉ calls (toggle_xinput true true true
        (poll_events true [event.SDL_JOYDEVICEADDED 0 7 1 0] boot)) := by
  have hrun : (poll_events true [event.SDL_JOYDEVICEADDED 0 7 1 0] boot).running = true := by
    decide
  rw [toggle_xinput_ok true _ hrun]
  constructor
  · refine ⟨(call.SDL_QuitSubSystem,
      (poll_events true [event.SDL_JOYDEVICEADDED 0 7 1 0] boot).joys), ?_, rfl, by decide⟩
    simp
  · decide

/-- An occupied slot is not touched by an event other than the removal of its handle. -/
theorem handle_event_keeps_slot (brk : Bool) (e : event) (w : world) (i : Slot)
    (hocc : w.joys.ptr i ≠ NULL)
    (hother : ∀ which js, e = event.SDL_JOYDEVICEREMOVED which js → js ≠ w.joys.ptr i) :
    (handle_event brk e w).joys.ptr i = w.joys.ptr i ∧
    (handle_event brk e w).joys.has_haptics i = w.joys.has_haptics i := by
  cases e with
  | SDL_QUIT => exact ⟨rfl, rfl⟩
  | other => exact ⟨rfl, rfl⟩
  | SDL_JOYDEVICEADDED which joystick name haptic =>
    simp only [handle_event]
    rcases joydevice_added_joys_cases brk which joystick name haptic w with h | h
    · rw [h]; exact ⟨rfl, rfl⟩
    · rw [h]
      rcases add_scan_cases joystick (decide (haptic ≠ NULL)) w.joys slots with h2 | ⟨k, hk, h2⟩
      · rw [h2]; exact ⟨rfl, rfl⟩
      · rw [h2]
        have hik : i ≠ k := fun hik => hocc (hik ▸ hk)
        exact ⟨store_ptr_other _ _ _ _ _ hik, store_flag_other _ _ _ _ _ hik⟩
  | SDL_JOYDEVICEREMOVED which js =>
    simp only [handle_event]
    rcases joydevice_removed_joys_cases brk which js w with h | h
    · rw [h]; exact ⟨rfl, rfl⟩
    · rw [h]
      rcases remove_scan_cases js w.joys slots with h2 | ⟨k, hk, h2⟩
      · rw [h2]; exact ⟨rfl, rfl⟩
      · rw [h2]
        have hik : i ≠ k := fun hik => hother which js rfl (hik ▸ hk)
        exact ⟨store_ptr_other _ _ _ _ _ hik, store_flag_other _ _ _ _ _ hik⟩

/-- C8. When slot `i` is occupied and its haptic flag is true, then after every sequence
of device-added events and of device-removed events for other handles, slot `i` holds
the same handle and its haptic flag is still true. -/
theorem C8_haptic_flag_stable
    (brk : Bool) (evs : List event) (w : world) (i : Slot)
    (hocc : w.joys.ptr i ≠ NULL) (hflag : w.joys.has_haptics i = true)
    (hother : ∀ which js, event.SDL_JOYDEVICEREMOVED which js ∈ evs → js ≠ w.joys.ptr i) :
    (poll_events brk evs w).joys.ptr i = w.joys.ptr i ∧
    (poll_events brk evs w).joys.has_haptics i = true := by
  induction evs generalizing w with
  | nil => exact ⟨rfl, hflag⟩
  | cons e es ih =>
    by_cases hrun : w.running = true
    · rw [poll_events_cons brk e es w hrun]
      obtain ⟨hp, hh⟩ := handle_event_keeps_slot brk e w i hocc
        (fun which js he => hother which js (he ▸ List.mem_cons_self _ _))
      have := ih (handle_event brk e w) (by rw [hp]; exact hocc) (by rw [hh]; exact hflag)
        (fun which js hmem => by
          rw [hp]; exact hother which js (List.mem_cons_of_mem _ hmem))
      rw [hp] at this
      exact this
    · simp only [poll_events, hrun]
      exact ⟨rfl, hflag⟩

theorem calls_emit (c : call) (w : world) : calls (emit c w) = calls w ++ [c] := by
  simp [calls, emit]

theorem calls_emit_all (cs : List call) (w : world) :
    calls (emit_all cs w) = calls w ++ cs := by
  induction cs generalizing w with
  | nil => simp [emit_all]
  | cons c cs ih =>
    have h := ih (emit c w)
    simp only [emit_all, List.foldl_cons] at h ⊢
    rw [h]
    simp [calls, emit]

theorem joys_emit_all (cs : List call) (w : world) : (emit_all cs w).joys = w.joys := by
  induction cs generalizing w with
  | nil => rfl
  | cons c cs ih =>
    have h := ih (emit c w)
    simp only [emit_all, List.foldl_cons] at h ⊢
    rw [h]
    rfl

theorem running_emit_all (cs : List call) (w : world) :
    (emit_all cs w).running = w.running := by
  induction cs generalizing w with
  | nil => rfl
  | cons c cs ih =>
    have h := ih (emit c w)
    simp only [emit_all, List.foldl_cons] at h ⊢
    rw [h]
    rfl

theorem panels_drawn_emit (c : call) (w : world) :
    panels_drawn (emit c w) = panels_drawn w ++ [c].filter is_panel_entry := by
  simp only [panels_drawn, calls_emit, List.filter_append]

theorem panels_drawn_emit_all (cs : List call) (w : world) :
    panels_drawn (emit_all cs w) = panels_drawn w ++ cs.filter is_panel_entry := by
  simp only [panels_drawn, calls_emit_all, List.filter_append]

/-- None of the calls made in the body of a panel is an entry into `joystick_panel`. -/
theorem panel_queries_not_entries (p : panel_input) (js : Ptr) (hh : Bool) :
    (panel_queries p js hh).filter is_panel_entry = [] := by
  rw [List.filter_eq_nil_iff]
  intro c hc
  simp only [panel_queries, List.mem_append, List.mem_cons, List.mem_map, List.mem_range,
    List.mem_singleton, List.not_mem_nil, or_false] at hc
  rcases hc with ((((((h | h | h | h) | ⟨_, _, h⟩) | h) | ⟨_, _, h⟩) | h) | ⟨_, _, h⟩) | h
  all_goals first
    | (subst h; simp [is_panel_entry])
    | (split_ifs at h
       · simp only [List.mem_cons, List.mem_singleton, List.not_mem_nil, or_false] at h
         rcases h with h | h | h | h | h <;> (subst h; simp [is_panel_entry])
       · simp at h)

/-- The name lookup: the table and the panels handed over are untouched, and the
process goes on unless the device has no name and `FTG_BREAK()` ends it. -/
theorem get_joystick_name_effect (brk : Bool) (joy name : Ptr) (w : world) :
    (get_joystick_name brk joy name w).joys = w.joys ∧
    panels_drawn (get_joystick_name brk joy name w) = panels_drawn w ∧
    (w.running = true → (name = NULL → brk = false) →
      (get_joystick_name brk joy name w).running = true) := by
  by_cases hn : name = NULL
  · refine ⟨by simp [get_joystick_name, FTG_BREAK, emit, hn], ?_, ?_⟩
    · simp [get_joystick_name, FTG_BREAK, emit, hn, panels_drawn, calls, is_panel_entry]
    · intro hrun hb
      simp [get_joystick_name, FTG_BREAK, emit, hn, hrun, hb hn]
  · refine ⟨by simp [get_joystick_name, emit, hn], ?_, ?_⟩
    · simp [get_joystick_name, emit, hn, panels_drawn, calls, is_panel_entry]
    · intro hrun _
      simp [get_joystick_name, emit, hn, hrun]

/-- One panel: the table is untouched, one entry is handed over, and the process goes
on unless the device has no name and `FTG_BREAK()` ends it. -/
theorem joystick_panel_effect (brk : Bool) (p : panel_input) (js : Ptr) (idx : Nat)
    (id : Int) (hh : Bool) (w : world) :
    (joystick_panel brk p js idx id hh w).joys = w.joys ∧
    panels_drawn (joystick_panel brk p js idx id hh w)
      = panels_drawn w ++ [call.joystick_panel js idx id hh] ∧
    (w.running = true → (p.name = NULL → brk = false) →
      (joystick_panel brk p js idx id hh w).running = true) := by
  obtain ⟨hj, hd, hr⟩ := get_joystick_name_effect brk js p.name
    (emit (call.joystick_panel js idx id hh) w)
  have hd0 : panels_drawn (emit (call.joystick_panel js idx id hh) w)
      = panels_drawn w ++ [call.joystick_panel js idx id hh] := by
    rw [panels_drawn_emit]; simp [is_panel_entry]
  have hj0 : (emit (call.joystick_panel js idx id hh) w).joys = w.joys := rfl
  have hr0 : (emit (call.joystick_panel js idx id hh) w).running = w.running := rfl
  simp only [joystick_panel]
  split_ifs with h1 h2
  · refine ⟨hj.trans hj0, hd.trans hd0, fun hrun hb => ?_⟩
    have := hr (hr0.trans hrun) hb
    simp [this] at h1
  · refine ⟨by rw [joys_emit_all]; exact hj.trans hj0, ?_, fun hrun hb => ?_⟩
    · rw [panels_drawn_emit_all, panel_queries_not_entries, List.append_nil]
      exact hd.trans hd0
    · rw [running_emit_all]; exact hr (hr0.trans hrun) hb
  · exact ⟨hj.trans hj0, hd.trans hd0, fun hrun hb => hr (hr0.trans hrun) hb⟩

theorem panel_loop_joys (brk : Bool) (instance_id_of : Ptr → Int)
    (panels : Slot → panel_input) (l : List Slot) (w : world) :
    (panel_loop brk instance_id_of panels l w).joys = w.joys := by
  induction l generalizing w with
  | nil => rfl
  | cons i rest ih =>
    simp only [panel_loop]
    split_ifs
    · exact ih w
    · exact (joystick_panel_effect brk _ _ _ _ _ _).1
    · rw [ih]; exact (joystick_panel_effect brk _ _ _ _ _ _).1

/-- A loop over an empty table does nothing. -/
theorem panel_loop_empty (brk : Bool) (instance_id_of : Ptr → Int)
    (panels : Slot → panel_input) (l : List Slot) (w : world)
    (hempty : ∀ i, w.joys.ptr i = NULL) :
    panel_loop brk instance_id_of panels l w = w := by
  induction l with
  | nil => rfl
  | cons a l ih => simp [panel_loop, hempty a, ih]

/-- The panel loop over any list of indices, from a running state: the entries handed
over are those of the occupied indices of the list, in the order of the list, up to
the point where the process ends; when no visited device lacks a name (or `FTG_BREAK()`
lets the process continue) they are all of them and the process goes on. -/
theorem panel_loop_effect (brk : Bool) (instance_id_of : Ptr → Int)
    (panels : Slot → panel_input) (joys : joysticks) (l : List Slot) (w : world)
    (hw : w.joys = joys) (hrun : w.running = true) :
    (∃ n, panels_drawn (panel_loop brk instance_id_of panels l w) = panels_drawn w ++
      ((l.filter fun i => decide (joys.ptr i ≠ NULL)).take n).map fun i =>
        call.joystick_panel (joys.ptr i) i.val (instance_id_of (joys.ptr i))
          (joys.has_haptics i)) ∧
    ((∀ i ∈ l, joys.ptr i ≠ NULL → (panels i).name = NULL → brk = false) →
      (panel_loop brk instance_id_of panels l w).running = true ∧
      panels_drawn (panel_loop brk instance_id_of panels l w) = panels_drawn w ++
        (l.filter fun i => decide (joys.ptr i ≠ NULL)).map fun i =>
          call.joystick_panel (joys.ptr i) i.val (instance_id_of (joys.ptr i))
            (joys.has_haptics i)) := by
  induction l generalizing w with
  | nil => exact ⟨⟨0, by simp [panel_loop]⟩, fun _ => ⟨hrun, by simp [panel_loop]⟩⟩
  | cons i rest ih =>
    by_cases hi : joys.ptr i = NULL
    · have hstep : panel_loop brk instance_id_of panels (i :: rest) w
          = panel_loop brk instance_id_of panels rest w := by
        simp [panel_loop, hw, hi]
      rw [hstep]
      obtain ⟨⟨n, hn⟩, hall⟩ := ih w hw hrun
      refine ⟨⟨n, ?_⟩, fun hnames => ?_⟩
      · simpa [hi] using hn
      · simpa [hi] using hall (fun k hk => hnames k (List.mem_cons_of_mem _ hk))
    · obtain ⟨hj, hd, hr⟩ := joystick_panel_effect brk (panels i) (joys.ptr i) i.val
        (instance_id_of (joys.ptr i)) (joys.has_haptics i)
        (emit (call.SDL_JoystickInstanceID (joys.ptr i)) w)
      have hd1 : panels_drawn (joystick_panel brk (panels i) (joys.ptr i) i.val
          (instance_id_of (joys.ptr i)) (joys.has_haptics i)
          (emit (call.SDL_JoystickInstanceID (joys.ptr i)) w)) = panels_drawn w ++
          [call.joystick_panel (joys.ptr i) i.val (instance_id_of (joys.ptr i))
            (joys.has_haptics i)] := by
        rw [hd, panels_drawn_emit]; simp [is_panel_entry]
      have hj1 : (joystick_panel brk (panels i) (joys.ptr i) i.val
          (instance_id_of (joys.ptr i)) (joys.has_haptics i)
          (emit (call.SDL_JoystickInstanceID (joys.ptr i)) w)).joys = joys := by
        rw [hj]; exact hw
      cases hr2 : (joystick_panel brk (panels i) (joys.ptr i) i.val
          (instance_id_of (joys.ptr i)) (joys.has_haptics i)
          (emit (call.SDL_JoystickInstanceID (joys.ptr i)) w)).running with
      | false =>
        have hstep : panel_loop brk instance_id_of panels (i :: rest) w
            = joystick_panel brk (panels i) (joys.ptr i) i.val
              (instance_id_of (joys.ptr i)) (joys.has_haptics i)
              (emit (call.SDL_JoystickInstanceID (joys.ptr i)) w) := by
          simp [panel_loop, hw, hi, hr2]
        rw [hstep]
        refine ⟨⟨1, ?_⟩, fun hnames => ?_⟩
        · rw [hd1]; simp [hi]
        · have := hr hrun (hnames i (List.mem_cons_self _ _) hi)
          rw [hr2] at this
          exact absurd this (by decide)
      | true =>
        have hstep : panel_loop brk instance_id_of panels (i :: rest) w
            = panel_loop brk instance_id_of panels rest
              (joystick_panel brk (panels i) (joys.ptr i) i.val
                (instance_id_of (joys.ptr i)) (joys.has_haptics i)
                (emit (call.SDL_JoystickInstanceID (joys.ptr i)) w)) := by
          simp [panel_loop, hw, hi, hr2]
        rw [hstep]
        obtain ⟨⟨n, hn⟩, hall⟩ := ih _ hj1 hr2
        refine ⟨⟨n + 1, ?_⟩, fun hnames => ?_⟩
        · rw [hn, hd1]; simp [hi]
        · obtain ⟨hrr, hdd⟩ := hall (fun k hk => hnames k (List.mem_cons_of_mem _ hk))
          refine ⟨hrr, ?_⟩
          rw [hdd, hd1]; simp [hi]

/-- C9. In every call of `sim` that reaches its final loop, the entries handed to
`joystick_panel` in that frame are one for each slot that is occupied at that moment
and for no other, in strictly ascending slot order (so each once), each with the
handle, index, instance identifier and haptic flag of its own slot; the loop leaves
the table as it is.  This is so when no occupied slot holds a device without a name,
or when `FTG_BREAK()` lets the process continue; in any case the entries handed over
are an initial part of that list. -/
theorem C9_panel_loop_is_ordered_view
    (brk win32 : Bool) (instance_id_of : Ptr → Int) (f : frame) (w : world)
    (hpoll : (poll_events brk f.events w).running = true)
    (hstat : (status_window brk win32 f (poll_events brk f.events w)).running = true) :
    ∃ occ : List Slot, occ.Pairwise (· < ·) ∧
      (∀ i, i ∈ occ ↔
        (status_window brk win32 f (poll_events brk f.events w)).joys.ptr i ≠ NULL) ∧
      (sim brk win32 instance_id_of f w).joys
        = (status_window brk win32 f (poll_events brk f.events w)).joys ∧
      (∃ n, panels_drawn (sim brk win32 instance_id_of f w) =
        panels_drawn (status_window brk win32 f (poll_events brk f.events w)) ++
          (occ.take n).map fun i => call.joystick_panel
            ((status_window brk win32 f (poll_events brk f.events w)).joys.ptr i) i.val
            (instance_id_of
              ((status_window brk win32 f (poll_events brk f.events w)).joys.ptr i))
            ((status_window brk win32 f (poll_events brk f.events w)).joys.has_haptics i)) ∧
      ((∀ i, (status_window brk win32 f (poll_events brk f.events w)).joys.ptr i ≠ NULL →
          (f.panels i).name = NULL → brk = false) →
        (sim brk win32 instance_id_of f w).running = true ∧
        panels_drawn (sim brk win32 instance_id_of f w) =
          panels_drawn (status_window brk win32 f (poll_events brk f.events w)) ++
            occ.map fun i => call.joystick_panel
              ((status_window brk win32 f (poll_events brk f.events w)).joys.ptr i) i.val
              (instance_id_of
                ((status_window brk win32 f (poll_events brk f.events w)).joys.ptr i))
              ((status_window brk win32 f (poll_events brk f.events w)).joys.has_haptics i))
      := by
  have hsim : sim brk win32 instance_id_of f w = panel_loop brk instance_id_of f.panels slots
      (status_window brk win32 f (poll_events brk f.events w)) := by
    simp [sim, hpoll, hstat]
  obtain ⟨hpre, hall⟩ := panel_loop_effect brk instance_id_of f.panels
    (status_window brk win32 f (poll_events brk f.events w)).joys slots
    (status_window brk win32 f (poll_events brk f.events w)) rfl hstat
  refine ⟨slots.filter fun i => decide
      ((status_window brk win32 f (poll_events brk f.events w)).joys.ptr i ≠ NULL),
    slots_sorted.sublist (List.filter_sublist _), ?_, ?_, ?_, ?_⟩
  · intro i
    simp [List.mem_filter, mem_slots]
  · rw [hsim, panel_loop_joys]
  · rw [hsim]; exact hpre
  · intro hnames
    rw [hsim]
    exact hall (fun i _ => hnames i)

/-- C10. When the table has a free slot and neither handle is in it, then adding a
device (handle `h1`), removing it again (event for instance identifier 5, resolved by
SDL to `h1`) and adding it anew (handle `h2`, possibly the same value) succeeds at
every step: the process goes on, no assertion fails, `h1` is closed once, and at the end
`h2` is in exactly one slot. -/
theorem C10_add_remove_add_round_trip
    (brk : Bool) (w : world) (d1 d2 : Int) (h1 n1 p1 h2 n2 p2 : Ptr)
    (hrun : w.running = true) (hfree : ∃ i, w.joys.ptr i = NULL)
    (hopen1 : h1 ≠ NULL) (hnew1 : ∀ i, w.joys.ptr i ≠ h1) (hname1 : n1 = NULL → brk = false)
    (hopen2 : h2 ≠ NULL) (hnew2 : ∀ i, w.joys.ptr i ≠ h2) (hname2 : n2 = NULL → brk = false) :
    (poll_events brk [event.SDL_JOYDEVICEADDED d1 h1 n1 p1] w).running = true ∧
    failed_asserts (poll_events brk [event.SDL_JOYDEVICEADDED d1 h1 n1 p1] w)
      = failed_asserts w ∧
    (∃ i : Slot, (poll_events brk [event.SDL_JOYDEVICEADDED d1 h1 n1 p1] w).joys.ptr i = h1) ∧
    (poll_events brk [event.SDL_JOYDEVICEADDED d1 h1 n1 p1,
        event.SDL_JOYDEVICEREMOVED 5 h1] w).running = true ∧
    failed_asserts (poll_events brk [event.SDL_JOYDEVICEADDED d1 h1 n1 p1,
        event.SDL_JOYDEVICEREMOVED 5 h1] w) = failed_asserts w ∧
    closed_handles (poll_events brk [event.SDL_JOYDEVICEADDED d1 h1 n1 p1,
        event.SDL_JOYDEVICEREMOVED 5 h1] w) = closed_handles w ++ [h1] ∧
    (poll_events brk [event.SDL_JOYDEVICEADDED d1 h1 n1 p1,
        event.SDL_JOYDEVICEREMOVED 5 h1, event.SDL_JOYDEVICEADDED d2 h2 n2 p2] w).running
      = true ∧
    failed_asserts (poll_events brk [event.SDL_JOYDEVICEADDED d1 h1 n1 p1,
        event.SDL_JOYDEVICEREMOVED 5 h1, event.SDL_JOYDEVICEADDED d2 h2 n2 p2] w)
      = failed_asserts w ∧
    (∃ i : Slot,
      (poll_events brk [event.SDL_JOYDEVICEADDED d1 h1 n1 p1,
        event.SDL_JOYDEVICEREMOVED 5 h1, event.SDL_JOYDEVICEADDED d2 h2 n2 p2] w).joys.ptr i
        = h2 ∧
      ∀ j, (poll_events brk [event.SDL_JOYDEVICEADDED d1 h1 n1 p1,
        event.SDL_JOYDEVICEREMOVED 5 h1, event.SDL_JOYDEVICEADDED d2 h2 n2 p2] w).joys.ptr j
          = h2 → j = i) := by
  -- first add
  obtain ⟨i, hi, _, hscan1⟩ := add_scan_free h1 (decide (p1 ≠ NULL)) w.joys hfree
  have e1 := joydevice_added_joys brk d1 h1 n1 p1 w hrun hopen1 hname1
  have r1 := joydevice_added_running brk d1 h1 n1 p1 w hrun hname1 (by rw [hscan1])
  have f1 := joydevice_added_failed brk d1 h1 n1 p1 w hrun hopen1 hname1
  have c1 := joydevice_added_closed brk d1 h1 n1 p1 w
  rw [hscan1] at e1 f1
  simp only [if_true, List.append_nil] at f1
  -- the removal
  have hin : ∃ k, h1 = (joydevice_added brk d1 h1 n1 p1 w).joys.ptr k :=
    ⟨i, by rw [e1, store_ptr_same]⟩
  obtain ⟨k, hk, _, hscan2⟩ := remove_scan_present h1 _ hin
  have hki : k = i := by
    by_contra hne
    rw [e1, store_ptr_other _ _ _ _ _ hne] at hk
    exact hnew1 k hk.symm
  subst hki
  have e2 := joydevice_removed_joys brk 5 h1 _ r1 (Or.inl hopen1)
  obtain ⟨r2, f2, c2⟩ := joydevice_removed_found brk 5 h1 _ r1 hopen1 (by rw [hscan2])
  rw [hscan2] at e2
  have hptr2 : ∀ j, (joydevice_removed brk 5 h1
      (joydevice_added brk d1 h1 n1 p1 w)).joys.ptr j = w.joys.ptr j := by
    intro j
    rw [e2]
    by_cases hjk : j = k
    · rw [hjk, store_ptr_same, hi]
    · rw [store_ptr_other _ _ _ _ _ hjk, e1, store_ptr_other _ _ _ _ _ hjk]
  -- second add
  obtain ⟨m, _, _, hscan3⟩ := add_scan_free h2 (decide (p2 ≠ NULL))
    (joydevice_removed brk 5 h1 (joydevice_added brk d1 h1 n1 p1 w)).joys
    ⟨k, by rw [hptr2, hi]⟩
  have e3 := joydevice_added_joys brk d2 h2 n2 p2 _ r2 hopen2 hname2
  have r3 := joydevice_added_running brk d2 h2 n2 p2 _ r2 hname2 (by rw [hscan3])
  have f3 := joydevice_added_failed brk d2 h2 n2 p2 _ r2 hopen2 hname2
  rw [hscan3] at e3 f3
  simp only [if_true, List.append_nil] at f3
  simp only [poll_events, handle_event, hrun, r1, r2, if_true]
  refine ⟨trivial, f1, ⟨k, by rw [e1, store_ptr_same]⟩, trivial, f2.trans f1, ?_, r3,
    f3.trans (f2.trans f1), m, ?_, ?_⟩
  · rw [c2, c1]
  · rw [e3, store_ptr_same]
  · intro j hj
    by_contra hjm
    rw [e3, store_ptr_other _ _ _ _ _ hjm, hptr2] at hj
    exact hnew2 j hj

theorem added_handles_append (a b : List event) :
    added_handles (a ++ b) = added_handles a ++ added_handles b := by
  induction a with
  | nil => rfl
  | cons e es ih => cases e <;> simp [added_handles, ih]

/-- Every handle in the table after an event was there before or was opened by it. -/
theorem handle_event_handles (brk : Bool) (e : event) (w : world) (S : List Ptr)
    (hS : ∀ i, w.joys.ptr i ≠ NULL → w.joys.ptr i ∈ S) :
    ∀ i, (handle_event brk e w).joys.ptr i ≠ NULL →
      (handle_event brk e w).joys.ptr i ∈ S ++ added_handles [e] := by
  intro i
  cases e with
  | SDL_QUIT => exact fun h => List.mem_append_left _ (hS i h)
  | other => exact fun h => List.mem_append_left _ (hS i h)
  | SDL_JOYDEVICEADDED which joystick name haptic =>
    simp only [handle_event]
    rcases joydevice_added_joys_cases brk which joystick name haptic w with h | h
    · rw [h]; exact fun h => List.mem_append_left _ (hS i h)
    · rw [h]
      rcases add_scan_cases joystick (decide (haptic ≠ NULL)) w.joys slots with h2 | ⟨k, _, h2⟩
      · rw [h2]; exact fun h => List.mem_append_left _ (hS i h)
      · rw [h2]
        by_cases hik : i = k
        · intro _
          rw [hik, store_ptr_same]
          exact List.mem_append_right _ (by simp [added_handles])
        · rw [store_ptr_other _ _ _ _ _ hik]
          exact fun h => List.mem_append_left _ (hS i h)
  | SDL_JOYDEVICEREMOVED which js =>
    simp only [handle_event]
    rcases joydevice_removed_joys_cases brk which js w with h | h
    · rw [h]; exact fun h => List.mem_append_left _ (hS i h)
    · rw [h]
      rcases remove_scan_cases js w.joys slots with h2 | ⟨k, _, h2⟩
      · rw [h2]; exact fun h => List.mem_append_left _ (hS i h)
      · rw [h2]
        by_cases hik : i = k
        · intro hne
          rw [hik, store_ptr_same] at hne
          exact absurd rfl hne
        · rw [store_ptr_other _ _ _ _ _ hik]
          exact fun h => List.mem_append_left _ (hS i h)

theorem poll_events_handles (brk : Bool) (evs : List event) (w : world) (S : List Ptr)
    (hS : ∀ i, w.joys.ptr i ≠ NULL → w.joys.ptr i ∈ S) :
    ∀ i, (poll_events brk evs w).joys.ptr i ≠ NULL →
      (poll_events brk evs w).joys.ptr i ∈ S ++ added_handles evs := by
  induction evs generalizing w S with
  | nil => exact fun i h => List.mem_append_left _ (hS i h)
  | cons e es ih =>
    by_cases hrun : w.running = true
    · rw [poll_events_cons brk e es w hrun]
      have h := ih (handle_event brk e w) (S ++ added_handles [e])
        (handle_event_handles brk e w S hS)
      have happ : added_handles (e :: es) = added_handles [e] ++ added_handles es :=
        added_handles_append [e] es
      rw [happ, ← List.append_assoc]
      exact h
    · simp only [poll_events, hrun]
      exact fun i h => List.mem_append_left _ (hS i h)

/-- The table after the toggle is the old one (the process ended on the way) or empty. -/
theorem toggle_xinput_joys_cases (brk hint_ok init_ok : Bool) (w : world) :
    (toggle_xinput brk hint_ok init_ok w).joys = w.joys ∨
    (toggle_xinput brk hint_ok init_ok w).joys = init_joysticks w.joys := by
  cases brk <;> cases hint_ok <;> cases init_ok <;> cases hrun : w.running <;>
  simp [toggle_xinput, restart_joystick_subsystems, FTG_ASSERT, FTG_BREAK, fatal, emit, hrun]

theorem toggle_xinput_completes (brk hint_ok : Bool) (w : world) (hrun : w.running = true)
    (hhint : hint_ok = false → brk = false) :
    (toggle_xinput brk hint_ok true w).running = true ∧
    (toggle_xinput brk hint_ok true w).joys = init_joysticks w.joys := by
  cases hint_ok
  · have hb := hhint rfl
    subst hb
    simp [toggle_xinput, restart_joystick_subsystems, FTG_ASSERT, FTG_BREAK, emit, hrun]
  · simp [toggle_xinput, restart_joystick_subsystems, FTG_ASSERT, emit, hrun]

theorem sim_handles (brk win32 : Bool) (instance_id_of : Ptr → Int) (f : frame) (w : world)
    (S : List Ptr) (hS : ∀ i, w.joys.ptr i ≠ NULL → w.joys.ptr i ∈ S) :
    ∀ i, (sim brk win32 instance_id_of f w).joys.ptr i ≠ NULL →
      (sim brk win32 instance_id_of f w).joys.ptr i ∈ S ++ added_handles f.events := by
  have h1 := poll_events_handles brk f.events w S hS
  have h2 : ∀ i, (toggle_xinput brk f.hint_ok f.init_ok (poll_events brk f.events w)).joys.ptr i
      ≠ NULL →
      (toggle_xinput brk f.hint_ok f.init_ok (poll_events brk f.events w)).joys.ptr i
        ∈ S ++ added_handles f.events := by
    intro i
    rcases toggle_xinput_joys_cases brk f.hint_ok f.init_ok (poll_events brk f.events w)
      with h | h
    · rw [h]; exact h1 i
    · rw [h]; exact fun hne => absurd rfl hne
  unfold sim status_window
  simp only []
  split_ifs <;>
    first | exact h1 | exact h2 | (rw [panel_loop_joys]; first | exact h1 | exact h2)

theorem main_loop_handles (brk win32 : Bool) (instance_id_of : Ptr → Int) (fs : List frame)
    (w : world) (S : List Ptr) (hS : ∀ i, w.joys.ptr i ≠ NULL → w.joys.ptr i ∈ S) :
    ∀ i, (main_loop brk win32 instance_id_of fs w).joys.ptr i ≠ NULL →
      (main_loop brk win32 instance_id_of fs w).joys.ptr i
        ∈ S ++ added_handles (fs.map frame.events).flatten := by
  induction fs generalizing w S with
  | nil => exact fun i h => List.mem_append_left _ (hS i h)
  | cons f fs ih =>
    simp only [main_loop]
    split_ifs
    · have h := ih (sim brk win32 instance_id_of f w) (S ++ added_handles f.events)
        (sim_handles brk win32 instance_id_of f w S hS)
      simp only [List.map_cons, List.flatten_cons, added_handles_append, ← List.append_assoc]
      exact h
    · exact fun i h => List.mem_append_left _ (hS i h)

/-- C7. For every table (so also the one reached by adding 3 devices to the empty
table), once the xinput toggle has completed the table is fully empty and the panel
loop does nothing (no call, no panel); every handle found in the table in a later frame was opened by a
device-added event after the toggle.  In a frame of `sim` in which the button is
pressed, the result of `sim` is the result of the toggle: no panel is drawn. -/
theorem C7_toggle_leaves_empty_table :
    (∀ (brk hint_ok : Bool) (w : world),
      w.running = true → (hint_ok = false → brk = false) →
      (toggle_xinput brk hint_ok true w).running = true ∧
      (∀ i, (toggle_xinput brk hint_ok true w).joys.ptr i = NULL ∧
        (toggle_xinput brk hint_ok true w).joys.has_haptics i = false) ∧
      (∀ instance_id_of panels,
        panel_loop brk instance_id_of panels slots (toggle_xinput brk hint_ok true w)
          = toggle_xinput brk hint_ok true w) ∧
      (∀ (win32 : Bool) (instance_id_of : Ptr → Int) (fs : List frame) (i : Slot),
        (main_loop brk win32 instance_id_of fs (toggle_xinput brk hint_ok true w)).joys.ptr i
          ≠ NULL →
        (main_loop brk win32 instance_id_of fs (toggle_xinput brk hint_ok true w)).joys.ptr i
          ∈ added_handles (fs.map frame.events).flatten)) ∧
    (∀ (brk : Bool) (instance_id_of : Ptr → Int) (f : frame) (w : world),
      (poll_events brk f.events w).running = true →
      (poll_events brk f.events w).g_enable_xinput = true →
      f.status_open = true → f.button = true →
      (f.hint_ok = false → brk = false) → f.init_ok = true →
      sim brk true instance_id_of f w =
        toggle_xinput brk f.hint_ok f.init_ok (poll_events brk f.events w)) := by
  constructor
  · intro brk hint_ok w hrun hhint
    obtain ⟨hr, hj⟩ := toggle_xinput_completes brk hint_ok w hrun hhint
    have hempty : ∀ i, (toggle_xinput brk hint_ok true w).joys.ptr i = NULL := by
      intro i; rw [hj]; rfl
    refine ⟨hr, fun i => ⟨hempty i, by rw [hj]; rfl⟩,
      fun id panels => panel_loop_empty brk id panels slots _ hempty, ?_⟩
    intro win32 id fs i hne
    have h := main_loop_handles brk win32 id fs (toggle_xinput brk hint_ok true w) []
      (fun k hk => absurd (hempty k) hk) i hne
    simpa using h
  · intro brk id f w hrun hg hopen hbutton hhint hinit
    obtain ⟨hr, hj⟩ := toggle_xinput_completes brk f.hint_ok (poll_events brk f.events w)
      hrun hhint
    rw [← hinit] at hr hj
    have hempty : ∀ i, (toggle_xinput brk f.hint_ok f.init_ok
        (poll_events brk f.events w)).joys.ptr i = NULL := by
      intro i; rw [hj]; rfl
    simp only [sim, status_window, hrun, hg, hopen, hbutton, hr, Bool.and_self,
      Bool.not_true, if_true, Bool.false_eq_true, if_false,
      panel_loop_empty brk id f.panels slots _ hempty, ite_self]

/-! ## Every table the program builds has unflagged free slots -/

theorem free_slots_unflagged_added (brk : Bool) (which : Int) (joystick name haptic : Ptr)
    (w : world) (hwf : free_slots_unflagged w.joys) :
    free_slots_unflagged (joydevice_added brk which joystick name haptic w).joys := by
  by_cases hopen : joystick = NULL
  · have : (joydevice_added brk which joystick name haptic w).joys = w.joys := by
      simp [joydevice_added, emit, hopen]
    rw [this]; exact hwf
  · rcases joydevice_added_joys_cases brk which joystick name haptic w with h | h
    · rw [h]; exact hwf
    · rw [h]
      rcases add_scan_cases joystick (decide (haptic ≠ NULL)) w.joys slots with h2 | ⟨k, _, h2⟩
      · rw [h2]; exact hwf
      · rw [h2]
        intro i hi
        by_cases hik : i = k
        · rw [hik, store_ptr_same] at hi
          exact absurd hi hopen
        · rw [store_ptr_other _ _ _ _ _ hik] at hi
          rw [store_flag_other _ _ _ _ _ hik]
          exact hwf i hi

theorem free_slots_unflagged_removed (brk : Bool) (which : Int) (js : Ptr) (w : world)
    (hwf : free_slots_unflagged w.joys) :
    free_slots_unflagged (joydevice_removed brk which js w).joys := by
  rcases joydevice_removed_joys_cases brk which js w with h | h
  · rw [h]; exact hwf
  · rw [h]
    rcases remove_scan_cases js w.joys slots with h2 | ⟨k, _, h2⟩
    · rw [h2]; exact hwf
    · rw [h2]
      intro i hi
      by_cases hik : i = k
      · rw [hik, store_flag_same]
      · rw [store_ptr_other _ _ _ _ _ hik] at hi
        rw [store_flag_other _ _ _ _ _ hik]
        exact hwf i hi

theorem free_slots_unflagged_poll_events (brk : Bool) (evs : List event) (w : world)
    (hwf : free_slots_unflagged w.joys) :
    free_slots_unflagged (poll_events brk evs w).joys := by
  induction evs generalizing w with
  | nil => exact hwf
  | cons e es ih =>
    by_cases hrun : w.running = true
    · rw [poll_events_cons brk e es w hrun]
      apply ih
      cases e with
      | SDL_QUIT => exact hwf
      | other => exact hwf
      | SDL_JOYDEVICEADDED which joystick name haptic =>
        exact free_slots_unflagged_added brk which joystick name haptic w hwf
      | SDL_JOYDEVICEREMOVED which js => exact free_slots_unflagged_removed brk which js w hwf
    · simp only [poll_events, hrun]
      exact hwf

theorem free_slots_unflagged_sim (brk win32 : Bool) (instance_id_of : Ptr → Int) (f : frame)
    (w : world) (hwf : free_slots_unflagged w.joys) :
    free_slots_unflagged (sim brk win32 instance_id_of f w).joys := by
  have h1 := free_slots_unflagged_poll_events brk f.events w hwf
  have h2 : free_slots_unflagged
      (toggle_xinput brk f.hint_ok f.init_ok (poll_events brk f.events w)).joys := by
    rcases toggle_xinput_joys_cases brk f.hint_ok f.init_ok (poll_events brk f.events w)
      with h | h
    · rw [h]; exact h1
    · rw [h]; exact fun _ _ => rfl
  unfold sim status_window
  simp only []
  split_ifs <;>
    first | exact h1 | exact h2 | (rw [panel_loop_joys]; first | exact h1 | exact h2)

/-- From `init` on, whatever the frames bring, a free slot of the table never has its
haptic flag set. -/
theorem free_slots_unflagged_main_loop (brk win32 hint_ok init_ok : Bool)
    (instance_id_of : Ptr → Int) (garbage : joysticks) (fs : List frame) :
    free_slots_unflagged
      (main_loop brk win32 instance_id_of fs (init brk hint_ok init_ok garbage)).joys := by
  have h0 : free_slots_unflagged (init brk hint_ok init_ok garbage).joys := by
    have : (init brk hint_ok init_ok garbage).joys = init_joysticks garbage := by
      cases brk <;> cases hint_ok <;> cases init_ok <;>
      simp [init, restart_joystick_subsystems, FTG_ASSERT, FTG_BREAK, fatal, emit]
    rw [this]; exact fun _ _ => rfl
  generalize init brk hint_ok init_ok garbage = w at h0
  induction fs generalizing w with
  | nil => exact h0
  | cons f fs ih =>
    simp only [main_loop]
    split_ifs
    · exact ih _ (free_slots_unflagged_sim brk win32 instance_id_of f w h0)
    · exact h0

/-! ## The claims on concrete runs -/

/-- C1 on a run: from the start state, add 7, add 8, remove 7, add 9. -/
theorem C1_witness :
    (boot.running = true ∧ (7 : Ptr) ≠ NULL ∧ ∃ i, boot.joys.ptr i = NULL) ∧
    (∃ i : Slot, boot.joys.ptr i = NULL ∧ (∀ j, j < i → boot.joys.ptr j ≠ NULL) ∧
      (joydevice_added true 0 7 1 0 boot).joys.ptr i = 7 ∧
      (joydevice_added true 0 7 1 0 boot).joys.has_haptics i = decide ((0 : Ptr) ≠ NULL) ∧
      ∀ j, j ≠ i →
        (joydevice_added true 0 7 1 0 boot).joys.ptr j = boot.joys.ptr j ∧
        (joydevice_added true 0 7 1 0 boot).joys.has_haptics j = boot.joys.has_haptics j) ∧
    (poll_events true [event.SDL_JOYDEVICEADDED 0 7 1 0, event.SDL_JOYDEVICEADDED 1 8 1 0,
        event.SDL_JOYDEVICEREMOVED 0 7, event.SDL_JOYDEVICEADDED 0 9 1 0] boot).joys.ptr 0 = 9 ∧
    (poll_events true [event.SDL_JOYDEVICEADDED 0 7 1 0, event.SDL_JOYDEVICEADDED 1 8 1 0,
        event.SDL_JOYDEVICEREMOVED 0 7, event.SDL_JOYDEVICEADDED 0 9 1 0] boot).joys.ptr 2 ≠ 9 :=
  ⟨⟨by decide, by decide, ⟨0, by decide⟩⟩,
    C1_added_takes_lowest_free_slot.1 true boot 0 7 1 0 (by decide) (by decide) (by decide)
      ⟨0, by decide⟩,
    (C1_added_takes_lowest_free_slot.2 true boot { ptr := fun _ => 3, has_haptics := fun _ => true }
      0 1 0 0 7 8 9 1 1 1 0 0 0 (by decide) rfl (by decide) (by decide) (by decide)
      (by decide) (by decide) (by decide)).2.2.1,
    (C1_added_takes_lowest_free_slot.2 true boot { ptr := fun _ => 3, has_haptics := fun _ => true }
      0 1 0 0 7 8 9 1 1 1 0 0 0 (by decide) rfl (by decide) (by decide) (by decide)
      (by decide) (by decide) (by decide)).2.2.2⟩

/-- C2 on a run: the one device of `one_device`, handle 7, is removed. -/
theorem C2_witness :
    (one_device.running = true ∧ (7 : Ptr) ≠ NULL ∧ ∃ i, one_device.joys.ptr i = 7) ∧
    ∃ i : Slot, one_device.joys.ptr i = 7 ∧ (∀ j, j < i → one_device.joys.ptr j ≠ 7) ∧
      (joydevice_removed true 0 7 one_device).joys.ptr i = NULL ∧
      (joydevice_removed true 0 7 one_device).joys.has_haptics i = false ∧
      (∀ j, j ≠ i →
        (joydevice_removed true 0 7 one_device).joys.ptr j = one_device.joys.ptr j ∧
        (joydevice_removed true 0 7 one_device).joys.has_haptics j
          = one_device.joys.has_haptics j) ∧
      closed_handles (joydevice_removed true 0 7 one_device)
        = closed_handles one_device ++ [7] ∧
      failed_asserts (joydevice_removed true 0 7 one_device) = failed_asserts one_device ∧
      (joydevice_removed true 0 7 one_device).running = true :=
  ⟨⟨by decide, by decide, ⟨0, by decide⟩⟩,
    C2_removed_empties_slot_and_closes_once true one_device 0 7 (by decide) (by decide)
      ⟨0, by decide⟩⟩

/-- C3 on a run: a seventeenth device, handle 99, arrives at `full_house`. -/
theorem C3_witness :
    (full_house.running = true ∧ (99 : Ptr) ≠ NULL ∧ ∀ i, full_house.joys.ptr i ≠ NULL) ∧
    failed_asserts (joydevice_added true 16 99 1 0 full_house)
      = failed_asserts full_house ++ [assertion.found_added] ∧
    ∀ i, (joydevice_added true 16 99 1 0 full_house).joys.ptr i = full_house.joys.ptr i ∧
      (joydevice_added true 16 99 1 0 full_house).joys.has_haptics i
        = full_house.joys.has_haptics i :=
  ⟨⟨by decide, by decide, by decide⟩,
    C3_added_to_full_table true full_house 16 99 1 0 (by decide) (by decide) (by decide)
      (by decide)⟩

/-- C4 on a run: identifier 42, unknown to SDL (null handle), is removed at the start
state, and a handle 9 that is in no slot is removed at `one_device`. -/
theorem C4_witness :
    ((∃ a rest, failed_asserts (joydevice_removed true 42 0 boot)
        = failed_asserts boot ++ a :: rest) ∧
      occupied_count (joydevice_removed true 42 0 boot).joys = 0) ∧
    (one_device.running = true ∧ free_slots_unflagged one_device.joys ∧
      ∀ i, one_device.joys.ptr i ≠ NULL → one_device.joys.ptr i ≠ 9) ∧
    (∃ a rest, failed_asserts (joydevice_removed false 3 9 one_device)
        = failed_asserts one_device ++ a :: rest) ∧
    (joydevice_removed false 3 9 one_device).joys = one_device.joys :=
  ⟨C4_removed_unknown_is_error.2 true boot { ptr := fun _ => 3, has_haptics := fun _ => true } 0
      (by decide) rfl,
    ⟨by decide, by unfold free_slots_unflagged; decide, by decide⟩,
    C4_removed_unknown_is_error.1 false one_device 3 9 (by decide)
      (by unfold free_slots_unflagged; decide) (by decide)⟩

/-- C5 on a run: add 7, add 8, remove 7, add 9 from the start state. -/
theorem C5_witness :
    adds_fresh true [event.SDL_JOYDEVICEADDED 0 7 1 0, event.SDL_JOYDEVICEADDED 1 8 1 0,
        event.SDL_JOYDEVICEREMOVED 0 7, event.SDL_JOYDEVICEADDED 0 9 1 0] boot ∧
    slot_unique (poll_events true [event.SDL_JOYDEVICEADDED 0 7 1 0,
        event.SDL_JOYDEVICEADDED 1 8 1 0, event.SDL_JOYDEVICEREMOVED 0 7,
        event.SDL_JOYDEVICEADDED 0 9 1 0] boot).joys :=
  ⟨by simp only [adds_fresh]; decide,
    C5_slot_unique_for_fresh_handles true _ boot
      { ptr := fun _ => 3, has_haptics := fun _ => true } rfl
      (by simp only [adds_fresh]; decide)⟩

/-- C6 on a run: the toggle at `one_device`. -/
theorem C6_witness :
    one_device.running = true ∧
    (toggle_xinput true true true one_device).log =
      one_device.log ++
        [(call.SDL_SetHint_XINPUT_ENABLED (!one_device.g_enable_xinput), one_device.joys),
          (call.SDL_QuitSubSystem, one_device.joys),
          (call.SDL_InitSubSystem, one_device.joys)] ∧
    (toggle_xinput true true true one_device).g_enable_xinput
      = !one_device.g_enable_xinput ∧
    closed_handles (toggle_xinput true true true one_device) = closed_handles one_device ∧
    (∀ i, (toggle_xinput true true true one_device).joys.ptr i = NULL ∧
      (toggle_xinput true true true one_device).joys.has_haptics i = false) ∧
    (toggle_xinput true true true one_device).running = true :=
  ⟨by decide, C6_toggle_restarts_then_clears true one_device (by decide)⟩

/-- C7 on a run: three devices are added to the empty table, then the toggle runs. -/
theorem C7_witness :
    (poll_events true [event.SDL_JOYDEVICEADDED 0 7 1 0, event.SDL_JOYDEVICEADDED 1 8 1 5,
        event.SDL_JOYDEVICEADDED 2 9 1 0] boot).running = true ∧
    (toggle_xinput true true true (poll_events true [event.SDL_JOYDEVICEADDED 0 7 1 0,
        event.SDL_JOYDEVICEADDED 1 8 1 5, event.SDL_JOYDEVICEADDED 2 9 1 0] boot)).running
      = true ∧
    (∀ i, (toggle_xinput true true true (poll_events true [event.SDL_JOYDEVICEADDED 0 7 1 0,
        event.SDL_JOYDEVICEADDED 1 8 1 5, event.SDL_JOYDEVICEADDED 2 9 1 0] boot)).joys.ptr i
        = NULL ∧
      (toggle_xinput true true true (poll_events true [event.SDL_JOYDEVICEADDED 0 7 1 0,
        event.SDL_JOYDEVICEADDED 1 8 1 5,
        event.SDL_JOYDEVICEADDED 2 9 1 0] boot)).joys.has_haptics i = false) ∧
    (∀ instance_id_of panels,
      panel_loop true instance_id_of panels slots (toggle_xinput true true true
        (poll_events true [event.SDL_JOYDEVICEADDED 0 7 1 0, event.SDL_JOYDEVICEADDED 1 8 1 5,
          event.SDL_JOYDEVICEADDED 2 9 1 0] boot)) =
      toggle_xinput true true true
        (poll_events true [event.SDL_JOYDEVICEADDED 0 7 1 0, event.SDL_JOYDEVICEADDED 1 8 1 5,
          event.SDL_JOYDEVICEADDED 2 9 1 0] boot)) ∧
    sim true true (fun _ => 0)
        { events := [event.SDL_JOYDEVICEADDED 0 7 1 0, event.SDL_JOYDEVICEADDED 1 8 1 5,
            event.SDL_JOYDEVICEADDED 2 9 1 0],
          status_open := true, button := true, hint_ok := true, init_ok := true,
          panels := fun _ => plain_panel } boot =
      toggle_xinput true true true (poll_events true [event.SDL_JOYDEVICEADDED 0 7 1 0,
        event.SDL_JOYDEVICEADDED 1 8 1 5, event.SDL_JOYDEVICEADDED 2 9 1 0] boot) :=
  ⟨by decide,
    (C7_toggle_leaves_empty_table.1 true true _ (by decide) (by decide)).1,
    (C7_toggle_leaves_empty_table.1 true true _ (by decide) (by decide)).2.1,
    (C7_toggle_leaves_empty_table.1 true true _ (by decide) (by decide)).2.2.1,
    C7_toggle_leaves_empty_table.2 true (fun _ => 0)
      { events := [event.SDL_JOYDEVICEADDED 0 7 1 0, event.SDL_JOYDEVICEADDED 1 8 1 5,
          event.SDL_JOYDEVICEADDED 2 9 1 0],
        status_open := true, button := true, hint_ok := true, init_ok := true,
          panels := fun _ => plain_panel }
      boot (by decide) (by decide) rfl rfl (by decide) rfl⟩

/-- C8 on a run: slot 1 of a table holds handle 8 with haptics; 7 is removed from slot
0 and 9 is added. -/
theorem C8_witness :
    ((poll_events true [event.SDL_JOYDEVICEADDED 0 7 1 0,
        event.SDL_JOYDEVICEADDED 1 8 1 5] boot).joys.ptr 1 ≠ NULL ∧
      (poll_events true [event.SDL_JOYDEVICEADDED 0 7 1 0,
        event.SDL_JOYDEVICEADDED 1 8 1 5] boot).joys.has_haptics 1 = true) ∧
    (poll_events true [event.SDL_JOYDEVICEREMOVED 0 7, event.SDL_JOYDEVICEADDED 0 9 1 0]
      (poll_events true [event.SDL_JOYDEVICEADDED 0 7 1 0,
        event.SDL_JOYDEVICEADDED 1 8 1 5] boot)).joys.ptr 1 =
      (poll_events true [event.SDL_JOYDEVICEADDED 0 7 1 0,
        event.SDL_JOYDEVICEADDED 1 8 1 5] boot).joys.ptr 1 ∧
    (poll_events true [event.SDL_JOYDEVICEREMOVED 0 7, event.SDL_JOYDEVICEADDED 0 9 1 0]
      (poll_events true [event.SDL_JOYDEVICEADDED 0 7 1 0,
        event.SDL_JOYDEVICEADDED 1 8 1 5] boot)).joys.has_haptics 1 = true :=
  ⟨⟨by decide, by decide⟩,
    C8_haptic_flag_stable true
      [event.SDL_JOYDEVICEREMOVED 0 7, event.SDL_JOYDEVICEADDED 0 9 1 0]
      (poll_events true [event.SDL_JOYDEVICEADDED 0 7 1 0,
        event.SDL_JOYDEVICEADDED 1 8 1 5] boot) 1 (by decide) (by decide)
      (by
        intro which js hmem
        simp only [List.mem_cons, List.mem_singleton, event.SDL_JOYDEVICEREMOVED.injEq,
          List.not_mem_nil, or_false] at hmem
        rcases hmem with ⟨_, hjs⟩ | hmem
        · rw [hjs]; decide
        · exact absurd hmem (by simp))⟩

/-- C9 on a run: the frame `three_in_one_out` at the start state leaves 7 in slot 0 and
9 in slot 2, and these two are handed to `joystick_panel`, in this order. -/
theorem C9_witness :
    ((poll_events true three_in_one_out.events boot).running = true ∧
      (status_window true true three_in_one_out
        (poll_events true three_in_one_out.events boot)).running = true) ∧
    (∃ occ : List Slot, occ.Pairwise (· < ·) ∧
      (∀ i, i ∈ occ ↔ (status_window true true three_in_one_out
        (poll_events true three_in_one_out.events boot)).joys.ptr i ≠ NULL) ∧
      (sim true true (fun js => Int.ofNat js + 1000) three_in_one_out boot).joys
        = (status_window true true three_in_one_out
            (poll_events true three_in_one_out.events boot)).joys ∧
      (∃ n, panels_drawn (sim true true (fun js => Int.ofNat js + 1000) three_in_one_out boot) =
        panels_drawn (status_window true true three_in_one_out
            (poll_events true three_in_one_out.events boot)) ++
          (occ.take n).map fun i => call.joystick_panel
            ((status_window true true three_in_one_out
              (poll_events true three_in_one_out.events boot)).joys.ptr i) i.val
            ((fun js => Int.ofNat js + 1000)
              ((status_window true true three_in_one_out
                (poll_events true three_in_one_out.events boot)).joys.ptr i))
            ((status_window true true three_in_one_out
              (poll_events true three_in_one_out.events boot)).joys.has_haptics i)) ∧
      ((∀ i, (status_window true true three_in_one_out
            (poll_events true three_in_one_out.events boot)).joys.ptr i ≠ NULL →
          (three_in_one_out.panels i).name = NULL → true = false) →
        (sim true true (fun js => Int.ofNat js + 1000) three_in_one_out boot).running = true ∧
        panels_drawn (sim true true (fun js => Int.ofNat js + 1000) three_in_one_out boot) =
          panels_drawn (status_window true true three_in_one_out
              (poll_events true three_in_one_out.events boot)) ++
            occ.map fun i => call.joystick_panel
              ((status_window true true three_in_one_out
                (poll_events true three_in_one_out.events boot)).joys.ptr i) i.val
              ((fun js => Int.ofNat js + 1000)
                ((status_window true true three_in_one_out
                  (poll_events true three_in_one_out.events boot)).joys.ptr i))
              ((status_window true true three_in_one_out
                (poll_events true three_in_one_out.events boot)).joys.has_haptics i))) ∧
    (∀ i, (status_window true true three_in_one_out
          (poll_events true three_in_one_out.events boot)).joys.ptr i ≠ NULL →
        (three_in_one_out.panels i).name = NULL → true = false) ∧
    panels_drawn (sim true true (fun js => Int.ofNat js + 1000) three_in_one_out boot)
      = [call.joystick_panel 7 0 1007 false, call.joystick_panel 9 2 1009 true] :=
  ⟨⟨by decide, by decide⟩,
    C9_panel_loop_is_ordered_view true true (fun js => Int.ofNat js + 1000) three_in_one_out
      boot (by decide) (by decide),
    by decide, by decide⟩

/-- C10 on a run: at `one_device`, a device with handle 5 is added, removed (instance
identifier 5) and added again with handle 6. -/
theorem C10_witness :
    (one_device.running = true ∧ (∃ i, one_device.joys.ptr i = NULL) ∧
      (∀ i, one_device.joys.ptr i ≠ 5) ∧ (∀ i, one_device.joys.ptr i ≠ 6)) ∧
    (poll_events true [event.SDL_JOYDEVICEADDED 1 5 1 0, event.SDL_JOYDEVICEREMOVED 5 5,
      event.SDL_JOYDEVICEADDED 1 6 1 0] one_device).running = true ∧
    failed_asserts (poll_events true [event.SDL_JOYDEVICEADDED 1 5 1 0,
      event.SDL_JOYDEVICEREMOVED 5 5, event.SDL_JOYDEVICEADDED 1 6 1 0] one_device)
      = failed_asserts one_device ∧
    (∃ i : Slot,
      (poll_events true [event.SDL_JOYDEVICEADDED 1 5 1 0, event.SDL_JOYDEVICEREMOVED 5 5,
        event.SDL_JOYDEVICEADDED 1 6 1 0] one_device).joys.ptr i = 6 ∧
      ∀ j, (poll_events true [event.SDL_JOYDEVICEADDED 1 5 1 0, event.SDL_JOYDEVICEREMOVED 5 5,
        event.SDL_JOYDEVICEADDED 1 6 1 0] one_device).joys.ptr j = 6 → j = i) :=
  ⟨⟨by decide, ⟨1, by decide⟩, by decide, by decide⟩,
    (C10_add_remove_add_round_trip true one_device 1 1 5 1 0 6 1 0 (by decide) ⟨1, by decide⟩
      (by decide) (by decide) (by decide) (by decide) (by decide) (by decide)).2.2.2.2.2.2⟩

end Investickgator
